import Mathlib

/-!
Verification of the hacklet-rs binary protocol codec and dongle session.

The development shallow-embeds `src/hacklet/src/messages.rs` and
`src/hacklet/src/dongle.rs`. Wire bytes are natural numbers (< 256 in any
well-formed buffer); byte buffers are `List Nat`. Fallible operations return
`Except`. Fixed-width integer serialization keeps the `% 256` reductions of
the machine arithmetic explicit.
-/

/-- Big-endian serialization of a natural number into `w` bytes, the byte
order binrw uses for the `big` endianness that every message declares at
struct level (`#[brw(big)]`). -/
def toBE : Nat → Nat → List Nat
  | 0, _ => []
  | w + 1, x => toBE w (x / 256) ++ [x % 256]

/-- Little-endian serialization: the big-endian bytes reversed. Used for the
fields marked `little` in messages.rs. -/
def toLE (w x : Nat) : List Nat := (toBE w x).reverse

/-- Big-endian deserialization of a byte list. -/
def fromBE (bs : List Nat) : Nat := bs.foldl (fun a b => a * 256 + b) 0

/-- Little-endian deserialization of a byte list. -/
def fromLE (bs : List Nat) : Nat := fromBE bs.reverse

@[simp] theorem length_toBE (w x : Nat) : (toBE w x).length = w := by
  induction w generalizing x with
  | zero => rfl
  | succ n ih => simp [toBE, ih]

@[simp] theorem length_toLE (w x : Nat) : (toLE w x).length = w := by
  simp [toLE]

theorem fromBE_concat (l : List Nat) (b : Nat) :
    fromBE (l ++ [b]) = fromBE l * 256 + b := by
  simp [fromBE, List.foldl_append]

theorem fromBE_toBE {w x : Nat} (h : x < 256 ^ w) : fromBE (toBE w x) = x := by
  induction w generalizing x with
  | zero =>
    have : x = 0 := Nat.lt_one_iff.mp (by simpa using h)
    simp [this, toBE, fromBE]
  | succ n ih =>
    have hdiv : x / 256 < 256 ^ n := by
      rw [Nat.div_lt_iff_lt_mul (by norm_num)]
      calc x < 256 ^ (n + 1) := h
        _ = 256 ^ n * 256 := by ring
    rw [toBE, fromBE_concat, ih hdiv, Nat.mul_comm]
    exact Nat.div_add_mod x 256

theorem fromLE_toLE {w x : Nat} (h : x < 256 ^ w) : fromLE (toLE w x) = x := by
  simp [fromLE, toLE, fromBE_toBE h]

theorem toBE_bytes_lt (w x : Nat) : ∀ b ∈ toBE w x, b < 256 := by
  induction w generalizing x with
  | zero => simp [toBE]
  | succ n ih =>
    intro b hb
    rw [toBE] at hb
    rcases List.mem_append.mp hb with h | h
    · exact ih _ b h
    · simp only [List.mem_singleton] at h
      subst h; exact Nat.mod_lt _ (by norm_num)

/-- The two accumulators of the `MessageChecksum` stream filter
(messages.rs:35-39): `checksum` is the value exposed to the codec's
`s.checksum` accesses, `previous_checksum` the running XOR including the
byte just processed. -/
structure ChecksumState where
  previous_checksum : Nat
  checksum : Nat
deriving DecidableEq

/-- The filter's initial state (`MessageChecksum::new`, messages.rs:42-48). -/
def csInit : ChecksumState := ⟨0, 0⟩

/-- One byte passing through `MessageChecksum::read` (messages.rs:58-61):
first the exposed checksum lags to the previous accumulator, then the
accumulator absorbs the byte. -/
def csRead1 (s : ChecksumState) (b : Nat) : ChecksumState :=
  { checksum := s.previous_checksum,
    previous_checksum := Nat.xor s.previous_checksum b }

/-- A whole buffer passing through `MessageChecksum::read`; the source loops
over `buf[0..size]` in order. -/
def csReadBytes (s : ChecksumState) (bs : List Nat) : ChecksumState :=
  bs.foldl csRead1 s

/-- The running XOR of `MessageChecksum::write` (messages.rs:80-82). -/
def csWrite (c : Nat) (bs : List Nat) : Nat := bs.foldl Nat.xor c

theorem csReadBytes_append (s : ChecksumState) (l₁ l₂ : List Nat) :
    csReadBytes s (l₁ ++ l₂) = csReadBytes (csReadBytes s l₁) l₂ := by
  simp [csReadBytes, List.foldl_append]

theorem csReadBytes_previous (s : ChecksumState) (bs : List Nat) :
    (csReadBytes s bs).previous_checksum = csWrite s.previous_checksum bs := by
  induction bs generalizing s with
  | nil => rfl
  | cons b t ih =>
    show (csReadBytes (csRead1 s b) t).previous_checksum = _
    rw [ih]
    rfl

/-- The read filter's one-byte lag: after a buffer `bs ++ [b]` has passed
through, the exposed checksum is the XOR of `bs` only — `b` does not
contribute to the value it will be checked against. -/
theorem csReadBytes_exposed (s : ChecksumState) (bs : List Nat) (b : Nat) :
    (csReadBytes s (bs ++ [b])).checksum = csWrite s.previous_checksum bs := by
  rw [csReadBytes_append]
  exact csReadBytes_previous s bs

/-- A full encoded frame: the magic byte 0x02 (written outside the checksum
filter, `#[brw(magic = 0x02u8)]`), the body (command, length code, payload),
and the trailing checksum captured from the write filter
(`#[bw(calc(s.checksum))]`). -/
def mkFrame (body : List Nat) : List Nat :=
  0x02 :: (body ++ [csWrite 0 body])

/-- Flip the trailing checksum byte by +1 with u8 wrap-around, as
`test_bad_data_checksum_failure` does (messages.rs:413-415). -/
def corruptLast (f : List Nat) : List Nat :=
  f.dropLast ++ [((f.getLast?).getD 0 + 1) % 256]

/-- Increment the two command bytes (u8 wrap) and re-derive the trailing
checksum over the corrupted body, so that only the command id is
inconsistent (the corruption described by the spec's command-isolation
property; cf. test_bad_command_header_failure, messages.rs:421-440). -/
def corruptCmd : List Nat → List Nat
  | m :: h :: l :: rest =>
    m :: ((h + 1) % 256) :: ((l + 1) % 256) ::
      (rest.dropLast ++ [csWrite 0 (((h + 1) % 256) :: ((l + 1) % 256) :: rest.dropLast)])
  | f => f

theorem succ_mod_256_ne (c : Nat) : (c + 1) % 256 ≠ c := by
  rcases Nat.lt_or_ge c 256 with h | h
  · rcases Nat.lt_or_ge (c + 1) 256 with h1 | h1
    · rw [Nat.mod_eq_of_lt h1]; omega
    · have : c = 255 := by omega
      subst this; decide
  · have : (c + 1) % 256 < 256 := Nat.mod_lt _ (by norm_num)
    omega

theorem corruptLast_mkFrame (b : List Nat) :
    corruptLast (mkFrame b) = 0x02 :: (b ++ [(csWrite 0 b + 1) % 256]) := by
  show corruptLast ((0x02 :: b) ++ [csWrite 0 b]) = _
  rw [corruptLast, List.dropLast_concat, List.getLast?_concat]
  rfl

theorem corruptCmd_frame (h l c : Nat) (tail : List Nat) :
    corruptCmd (0x02 :: h :: l :: (tail ++ [c])) =
      0x02 :: ((h + 1) % 256) :: ((l + 1) % 256) ::
        (tail ++ [csWrite 0 (((h + 1) % 256) :: ((l + 1) % 256) :: tail)]) := by
  rw [corruptCmd, List.dropLast_concat]

/-- The decode-time failure modes of the codec. binrw reports the magic
mismatch as a bad-magic error, a short buffer as an end-of-stream error, and
each failed `#[br(assert(...))]` distinctly; `dongle.rs` only distinguishes
success from failure, but the spec's error taxonomy names all four assert
kinds. -/
inductive DecodeError where
  | badMagic
  | eof
  | commandMismatch
  | lengthMismatch
  | fieldConstantMismatch
  | checksumMismatch
deriving DecidableEq

/-- Read one byte from a buffer. -/
def rd1 : List Nat → Except DecodeError (Nat × List Nat)
  | [] => .error .eof
  | b :: r => .ok (b, r)

/-- Read `n` raw bytes from a buffer. -/
def rdN : Nat → List Nat → Except DecodeError (List Nat × List Nat)
  | 0, buf => .ok ([], buf)
  | _ + 1, [] => .error .eof
  | n + 1, b :: r =>
    match rdN n r with
    | .ok (xs, rest) => .ok (b :: xs, rest)
    | .error e => .error e

@[simp] theorem rd1_cons (b : Nat) (r : List Nat) : rd1 (b :: r) = .ok (b, r) := rfl

@[simp] theorem rdN_zero (buf : List Nat) : rdN 0 buf = .ok ([], buf) := rfl

theorem rdN_append {n : Nat} (xs rest : List Nat) (h : xs.length = n) :
    rdN n (xs ++ rest) = .ok (xs, rest) := by
  induction xs generalizing n with
  | nil => subst h; rfl
  | cons b t ih =>
    subst h
    show rdN (t.length + 1) (b :: (t ++ rest)) = _
    rw [rdN, ih rfl]

theorem rdN_cons2 (a b : Nat) (r : List Nat) : rdN 2 (a :: b :: r) = .ok ([a, b], r) :=
  rdN_append [a, b] r rfl

theorem rdN_cons3 (a b c : Nat) (r : List Nat) :
    rdN 3 (a :: b :: c :: r) = .ok ([a, b, c], r) :=
  rdN_append [a, b, c] r rfl

theorem rdN_cons4 (a b c d : Nat) (r : List Nat) :
    rdN 4 (a :: b :: c :: d :: r) = .ok ([a, b, c, d], r) :=
  rdN_append [a, b, c, d] r rfl

theorem rdN_cons8 (a b c d e f g k : Nat) (r : List Nat) :
    rdN 8 (a :: b :: c :: d :: e :: f :: g :: k :: r) =
      .ok ([a, b, c, d, e, f, g, k], r) :=
  rdN_append [a, b, c, d, e, f, g, k] r rfl

/-- Shared frame prologue of every decoder: the magic byte (a mismatch fails
the decode outright, before any field is read), then the u16 command bytes
and the u8 payload-length byte, in the order binrw reads them. -/
def readHeader (buf : List Nat) : Except DecodeError (List Nat × Nat × List Nat) :=
  match rd1 buf with
  | .error e => .error e
  | .ok (magic, r) =>
    if magic = 0x02 then
      match rdN 2 r with
      | .error e => .error e
      | .ok (cmdB, r) =>
        match rd1 r with
        | .error e => .error e
        | .ok (lenB, r) => .ok (cmdB, lenB, r)
    else .error .badMagic

theorem readHeader_chunk (cmdB : List Nat) (h : cmdB.length = 2) (lenB : Nat)
    (rest : List Nat) :
    readHeader (0x02 :: (cmdB ++ lenB :: rest)) = .ok (cmdB, lenB, rest) := by
  rw [readHeader, rd1_cons]
  simp only [rdN_append cmdB (lenB :: rest) h, if_pos, rd1_cons]

theorem readHeader_cons (c1 c2 lenB : Nat) (rest : List Nat) :
    readHeader (0x02 :: c1 :: c2 :: (lenB :: rest)) = .ok ([c1, c2], lenB, rest) :=
  readHeader_chunk [c1, c2] rfl lenB rest

instance (priority := low) {ε α : Type} [DecidableEq ε] [DecidableEq α] :
    DecidableEq (Except ε α) := fun x y =>
  match x, y with
  | .ok a, .ok b =>
    if h : a = b then isTrue (by rw [h]) else isFalse (fun he => h (Except.ok.inj he))
  | .error a, .error b =>
    if h : a = b then isTrue (by rw [h]) else isFalse (fun he => h (Except.error.inj he))
  | .ok _, .error _ => isFalse (fun he => Except.noConfusion he)
  | .error _, .ok _ => isFalse (fun he => Except.noConfusion he)

/-- A message's payload layout: for each payload field in declaration order,
its byte width and, for the fields binrw fills with `#[bw(calc(...))]` and
verifies with `#[br(assert(field == ...))]`, the expected constant (stored
big-endian, the endianness every constant field of the catalog uses). -/
abbrev FieldSpec := List (Nat × Option Nat)

/-- Read the raw byte chunks of the payload fields, in order, exactly as
binrw's generated `BinRead` reads them from the checksummed stream. -/
def splitFields : FieldSpec → List Nat → Except DecodeError (List (List Nat) × List Nat)
  | [], buf => .ok ([], buf)
  | (w, _) :: fs, buf =>
    match rdN w buf with
    | .error e => .error e
    | .ok (chunk, rest) =>
      match splitFields fs rest with
      | .error e => .error e
      | .ok (chunks, rest) => .ok (chunk :: chunks, rest)

/-- The conjunction of the `#[br(assert(field == const))]` checks. -/
def constsOk : FieldSpec → List (List Nat) → Bool
  | [], [] => true
  | (w, some v) :: fs, c :: cs => decide (c = toBE w v) && constsOk fs cs
  | (_, none) :: fs, _ :: cs => constsOk fs cs
  | _, _ => false

/-- Generic decoder for the fixed-layout messages of the catalog: reads the
magic, the command, the payload-length code, the payload fields and the
checksum byte in stream order, then runs the struct-level asserts in the
order they are declared in messages.rs on every type: command, payload
length, field constants, checksum. The exposed checksum compared against is
the read filter's state after the whole frame body and the checksum byte
have passed through it. -/
def gRead (cmd lenCode : Nat) (fs : FieldSpec) (buf : List Nat) :
    Except DecodeError (List (List Nat)) :=
  match readHeader buf with
  | .error e => .error e
  | .ok (cmdB, lenB, r) =>
    match splitFields fs r with
    | .error e => .error e
    | .ok (chunks, r) =>
      match rd1 r with
      | .error e => .error e
      | .ok (ck, _) =>
        if fromBE cmdB = cmd then
          if lenB = lenCode then
            if constsOk fs chunks then
              if ck = (csReadBytes csInit ((cmdB ++ lenB :: chunks.flatten) ++ [ck])).checksum
              then .ok chunks
              else .error .checksumMismatch
            else .error .fieldConstantMismatch
          else .error .lengthMismatch
        else .error .commandMismatch

/-- The chunk widths a field spec accepts. -/
def ChunksFit (fs : FieldSpec) (chunks : List (List Nat)) : Prop :=
  List.Forall₂ (fun f (c : List Nat) => c.length = f.1) fs chunks

theorem splitFields_chunks {fs : FieldSpec} {chunks : List (List Nat)}
    (hw : ChunksFit fs chunks) (rest : List Nat) :
    splitFields fs (chunks.flatten ++ rest) = .ok (chunks, rest) := by
  induction hw with
  | nil => rfl
  | @cons f c fs' chunks' hfc htail ih =>
    rw [show (c :: chunks').flatten ++ rest = c ++ (chunks'.flatten ++ rest) from by simp]
    rw [splitFields, rdN_append c _ hfc]
    simp only [ih]

/-- The body of a frame with command `cmd`, length code `lenCode` and
payload chunks `chunks`: everything between the magic byte and the
checksum byte. -/
def gBody (cmd lenCode : Nat) (chunks : List (List Nat)) : List Nat :=
  toBE 2 cmd ++ lenCode :: chunks.flatten

theorem gRead_frame {cmd lenCode : Nat} {fs : FieldSpec} {chunks : List (List Nat)}
    (hcmd : cmd < 65536) (hw : ChunksFit fs chunks) (hc : constsOk fs chunks = true)
    (x : Nat) :
    gRead cmd lenCode fs (0x02 :: (gBody cmd lenCode chunks ++ [x])) =
      if x = csWrite 0 (gBody cmd lenCode chunks) then .ok chunks
      else .error .checksumMismatch := by
  rw [gBody]
  rw [show (toBE 2 cmd ++ lenCode :: chunks.flatten) ++ [x] =
        toBE 2 cmd ++ lenCode :: (chunks.flatten ++ [x]) from by simp]
  simp only [gRead, readHeader_chunk (toBE 2 cmd) (length_toBE 2 cmd) lenCode
      (chunks.flatten ++ [x]),
    splitFields_chunks hw [x], rd1_cons,
    fromBE_toBE (show cmd < 256 ^ 2 from by simpa using hcmd), hc,
    if_pos, if_true, csReadBytes_exposed, csInit]

theorem gRead_badcmd {cmd : Nat} (lenCode : Nat) {fs : FieldSpec}
    {chunks : List (List Nat)} (hw : ChunksFit fs chunks)
    (c1 c2 : Nat) (hne : fromBE [c1, c2] ≠ cmd) (x : Nat) :
    gRead cmd lenCode fs (0x02 :: c1 :: c2 :: (lenCode :: (chunks.flatten ++ [x]))) =
      .error .commandMismatch := by
  simp only [gRead, readHeader_cons, splitFields_chunks hw [x], rd1_cons]
  rw [if_neg hne]

/-- Read `n` little-endian u16 samples (`#[br(little, args { count: sample_count as usize })] samples: Vec<u16>`),
returning the decoded values, the raw bytes consumed, and the rest. -/
def rdSamples : Nat → List Nat → Except DecodeError (List Nat × List Nat × List Nat)
  | 0, buf => .ok ([], [], buf)
  | n + 1, buf =>
    match rdN 2 buf with
    | .error e => .error e
    | .ok (chunk, rest) =>
      match rdSamples n rest with
      | .error e => .error e
      | .ok (vals, raw, rest) => .ok (fromLE chunk :: vals, chunk ++ raw, rest)

theorem rdSamples_chunks (ws : List (List Nat)) (hw : ∀ c ∈ ws, c.length = 2)
    (rest : List Nat) :
    rdSamples ws.length (ws.flatten ++ rest) = .ok (ws.map fromLE, ws.flatten, rest) := by
  induction ws with
  | nil => rfl
  | cons c ws ih =>
    rw [show (c :: ws).flatten ++ rest = c ++ (ws.flatten ++ rest) from by simp]
    rw [show (c :: ws).length = ws.length + 1 from rfl]
    rw [rdSamples, rdN_append c _ (hw c (by simp))]
    simp only [ih (fun d hd => hw d (by simp [hd]))]
    simp

/- ======================= The message catalog =======================
One structure per `#[binrw]` struct of messages.rs, with exactly the public
(non-`calc`) fields. u8/u16/u32/u64 fields become `Nat` with a range
invariant in the type's `valid` predicate; `[u8; N]` fields become `List Nat`
with a length-and-range invariant. Each type has:
 - `fieldSpec`: payload field widths and the constants binrw asserts,
 - `chunks`: the payload bytes produced by the generated `BinWrite`
   (constants from `#[bw(calc(...))]`, fields in declared order/endianness),
 - `create_*`: `create_message_buf` for the type (magic, body, checksum),
 - `read_*`: `read_message_from_buf` for the type (via `gRead`, with the
   field decoding endianness of the generated `BinRead`). -/

/-- Boot response (messages.rs:92-106), command 0x4084, length code 0x16. -/
structure BootResponse where
  data : List Nat
  device_id : Nat
  data2 : Nat
deriving DecidableEq

def BootResponse.fieldSpec : FieldSpec := [(12, none), (8, none), (2, none)]

def BootResponse.chunks (m : BootResponse) : List (List Nat) :=
  [m.data, toBE 8 m.device_id, toBE 2 m.data2]

def BootResponse.valid (m : BootResponse) : Prop :=
  m.data.length = 12 ∧ (∀ b ∈ m.data, b < 256) ∧
    m.device_id < 2 ^ 64 ∧ m.data2 < 2 ^ 16

def create_BootResponse (m : BootResponse) : List Nat :=
  mkFrame (gBody 0x4084 0x16 m.chunks)

def read_BootResponse (buf : List Nat) : Except DecodeError BootResponse :=
  match gRead 0x4084 0x16 BootResponse.fieldSpec buf with
  | .error e => .error e
  | .ok [d, dev, d2] => .ok ⟨d, fromBE dev, fromBE d2⟩
  | .ok _ => .error .eof

/-- Boot confirm response (messages.rs:108-121), command 0x4080, length 0x01,
constant payload byte 0x10. -/
structure BootConfirmResponse where
deriving DecidableEq

def BootConfirmResponse.fieldSpec : FieldSpec := [(1, some 0x10)]

def BootConfirmResponse.chunks (_ : BootConfirmResponse) : List (List Nat) :=
  [toBE 1 0x10]

def BootConfirmResponse.valid (_ : BootConfirmResponse) : Prop := True

def create_BootConfirmResponse (m : BootConfirmResponse) : List Nat :=
  mkFrame (gBody 0x4080 0x01 m.chunks)

def read_BootConfirmResponse (buf : List Nat) : Except DecodeError BootConfirmResponse :=
  match gRead 0x4080 0x01 BootConfirmResponse.fieldSpec buf with
  | .error e => .error e
  | .ok _ => .ok {}

/-- Broadcast response (messages.rs:123-137), command 0xa013, length 0x0b. -/
structure BroadcastResponse where
  network_id : Nat
  device_id : Nat
  data : Nat
deriving DecidableEq

def BroadcastResponse.fieldSpec : FieldSpec := [(2, none), (8, none), (1, none)]

def BroadcastResponse.chunks (m : BroadcastResponse) : List (List Nat) :=
  [toBE 2 m.network_id, toBE 8 m.device_id, toBE 1 m.data]

def BroadcastResponse.valid (m : BroadcastResponse) : Prop :=
  m.network_id < 2 ^ 16 ∧ m.device_id < 2 ^ 64 ∧ m.data < 2 ^ 8

def create_BroadcastResponse (m : BroadcastResponse) : List Nat :=
  mkFrame (gBody 0xa013 0x0b m.chunks)

def read_BroadcastResponse (buf : List Nat) : Except DecodeError BroadcastResponse :=
  match gRead 0xa013 0x0b BroadcastResponse.fieldSpec buf with
  | .error e => .error e
  | .ok [n, dev, d] => .ok ⟨fromBE n, fromBE dev, fromBE d⟩
  | .ok _ => .error .eof

/-- Lock/unlock response (messages.rs:139-152), command 0xa0f9, length 0x01,
constant payload byte 0x00. -/
structure LockResponse where
deriving DecidableEq

def LockResponse.fieldSpec : FieldSpec := [(1, some 0x00)]

def LockResponse.chunks (_ : LockResponse) : List (List Nat) := [toBE 1 0x00]

def LockResponse.valid (_ : LockResponse) : Prop := True

def create_LockResponse (m : LockResponse) : List Nat :=
  mkFrame (gBody 0xa0f9 0x01 m.chunks)

def read_LockResponse (buf : List Nat) : Except DecodeError LockResponse :=
  match gRead 0xa0f9 0x01 LockResponse.fieldSpec buf with
  | .error e => .error e
  | .ok _ => .ok {}

/-- Update-time ack response (messages.rs:154-167), command 0x4022,
length 0x01, constant payload byte 0x00. -/
structure UpdateTimeAckResponse where
deriving DecidableEq

def UpdateTimeAckResponse.fieldSpec : FieldSpec := [(1, some 0x00)]

def UpdateTimeAckResponse.chunks (_ : UpdateTimeAckResponse) : List (List Nat) :=
  [toBE 1 0x00]

def UpdateTimeAckResponse.valid (_ : UpdateTimeAckResponse) : Prop := True

def create_UpdateTimeAckResponse (m : UpdateTimeAckResponse) : List Nat :=
  mkFrame (gBody 0x4022 0x01 m.chunks)

def read_UpdateTimeAckResponse (buf : List Nat) : Except DecodeError UpdateTimeAckResponse :=
  match gRead 0x4022 0x01 UpdateTimeAckResponse.fieldSpec buf with
  | .error e => .error e
  | .ok _ => .ok {}

/-- Update-time response (messages.rs:169-183), command 0x40a2, length 0x03,
network id then a constant 0x00 byte. -/
structure UpdateTimeResponse where
  network_id : Nat
deriving DecidableEq

def UpdateTimeResponse.fieldSpec : FieldSpec := [(2, none), (1, some 0x00)]

def UpdateTimeResponse.chunks (m : UpdateTimeResponse) : List (List Nat) :=
  [toBE 2 m.network_id, toBE 1 0x00]

def UpdateTimeResponse.valid (m : UpdateTimeResponse) : Prop := m.network_id < 2 ^ 16

def create_UpdateTimeResponse (m : UpdateTimeResponse) : List Nat :=
  mkFrame (gBody 0x40a2 0x03 m.chunks)

def read_UpdateTimeResponse (buf : List Nat) : Except DecodeError UpdateTimeResponse :=
  match gRead 0x40a2 0x03 UpdateTimeResponse.fieldSpec buf with
  | .error e => .error e
  | .ok [n, _] => .ok ⟨fromBE n⟩
  | .ok _ => .error .eof

/-- Handshake response (messages.rs:185-198), command 0x4003, length 0x01,
constant payload byte 0x00. -/
structure HandshakeResponse where
deriving DecidableEq

def HandshakeResponse.fieldSpec : FieldSpec := [(1, some 0x00)]

def HandshakeResponse.chunks (_ : HandshakeResponse) : List (List Nat) := [toBE 1 0x00]

def HandshakeResponse.valid (_ : HandshakeResponse) : Prop := True

def create_HandshakeResponse (m : HandshakeResponse) : List Nat :=
  mkFrame (gBody 0x4003 0x01 m.chunks)

def read_HandshakeResponse (buf : List Nat) : Except DecodeError HandshakeResponse :=
  match gRead 0x4003 0x01 HandshakeResponse.fieldSpec buf with
  | .error e => .error e
  | .ok _ => .ok {}

/-- Samples ack response (messages.rs:200-213), command 0x4024, length 0x01,
constant payload byte 0x00. -/
structure AckResponse where
deriving DecidableEq

def AckResponse.fieldSpec : FieldSpec := [(1, some 0x00)]

def AckResponse.chunks (_ : AckResponse) : List (List Nat) := [toBE 1 0x00]

def AckResponse.valid (_ : AckResponse) : Prop := True

def create_AckResponse (m : AckResponse) : List Nat :=
  mkFrame (gBody 0x4024 0x01 m.chunks)

def read_AckResponse (buf : List Nat) : Except DecodeError AckResponse :=
  match gRead 0x4024 0x01 AckResponse.fieldSpec buf with
  | .error e => .error e
  | .ok _ => .ok {}

/-- Schedule response (messages.rs:235-248), command 0x4023, length 0x01,
constant payload byte 0x00. -/
structure ScheduleResponse where
deriving DecidableEq

def ScheduleResponse.fieldSpec : FieldSpec := [(1, some 0x00)]

def ScheduleResponse.chunks (_ : ScheduleResponse) : List (List Nat) := [toBE 1 0x00]

def ScheduleResponse.valid (_ : ScheduleResponse) : Prop := True

def create_ScheduleResponse (m : ScheduleResponse) : List Nat :=
  mkFrame (gBody 0x4023 0x01 m.chunks)

def read_ScheduleResponse (buf : List Nat) : Except DecodeError ScheduleResponse :=
  match gRead 0x4023 0x01 ScheduleResponse.fieldSpec buf with
  | .error e => .error e
  | .ok _ => .ok {}

/-- Boot request (messages.rs:250-261), command 0x4004, length 0x00, empty
payload. -/
structure BootRequest where
deriving DecidableEq

def BootRequest.fieldSpec : FieldSpec := []

def BootRequest.chunks (_ : BootRequest) : List (List Nat) := []

def BootRequest.valid (_ : BootRequest) : Prop := True

def create_BootRequest (m : BootRequest) : List Nat :=
  mkFrame (gBody 0x4004 0x00 m.chunks)

def read_BootRequest (buf : List Nat) : Except DecodeError BootRequest :=
  match gRead 0x4004 0x00 BootRequest.fieldSpec buf with
  | .error e => .error e
  | .ok _ => .ok {}

/-- Boot confirm request (messages.rs:263-274), command 0x4000, length 0x00,
empty payload. -/
structure BootConfirmRequest where
deriving DecidableEq

def BootConfirmRequest.fieldSpec : FieldSpec := []

def BootConfirmRequest.chunks (_ : BootConfirmRequest) : List (List Nat) := []

def BootConfirmRequest.valid (_ : BootConfirmRequest) : Prop := True

def create_BootConfirmRequest (m : BootConfirmRequest) : List Nat :=
  mkFrame (gBody 0x4000 0x00 m.chunks)

def read_BootConfirmRequest (buf : List Nat) : Except DecodeError BootConfirmRequest :=
  match gRead 0x4000 0x00 BootConfirmRequest.fieldSpec buf with
  | .error e => .error e
  | .ok _ => .ok {}

/-- Unlock request (messages.rs:276-289), command 0xa236, length 0x04,
constant payload u32 0xfcff9001 (big-endian). -/
structure UnlockRequest where
deriving DecidableEq

def UnlockRequest.fieldSpec : FieldSpec := [(4, some 0xfcff9001)]

def UnlockRequest.chunks (_ : UnlockRequest) : List (List Nat) := [toBE 4 0xfcff9001]

def UnlockRequest.valid (_ : UnlockRequest) : Prop := True

def create_UnlockRequest (m : UnlockRequest) : List Nat :=
  mkFrame (gBody 0xa236 0x04 m.chunks)

def read_UnlockRequest (buf : List Nat) : Except DecodeError UnlockRequest :=
  match gRead 0xa236 0x04 UnlockRequest.fieldSpec buf with
  | .error e => .error e
  | .ok _ => .ok {}

/-- Lock request (messages.rs:291-304), command 0xa236, length 0x04,
constant payload u32 0xfcff0001 (big-endian). -/
structure LockRequest where
deriving DecidableEq

def LockRequest.fieldSpec : FieldSpec := [(4, some 0xfcff0001)]

def LockRequest.chunks (_ : LockRequest) : List (List Nat) := [toBE 4 0xfcff0001]

def LockRequest.valid (_ : LockRequest) : Prop := True

def create_LockRequest (m : LockRequest) : List Nat :=
  mkFrame (gBody 0xa236 0x04 m.chunks)

def read_LockRequest (buf : List Nat) : Except DecodeError LockRequest :=
  match gRead 0xa236 0x04 LockRequest.fieldSpec buf with
  | .error e => .error e
  | .ok _ => .ok {}

/-- Update-time request (messages.rs:306-320), command 0x4022, length 0x06.
The `time` field carries `#[bw(little)]` only: the generated `BinWrite`
serializes it little-endian while the generated `BinRead` inherits the
struct-level big endianness, so `chunks` uses `toLE` and `read_` uses
`fromBE`. -/
structure UpdateTimeRequest where
  network_id : Nat
  time : Nat
deriving DecidableEq

def UpdateTimeRequest.fieldSpec : FieldSpec := [(2, none), (4, none)]

def UpdateTimeRequest.chunks (m : UpdateTimeRequest) : List (List Nat) :=
  [toBE 2 m.network_id, toLE 4 m.time]

def UpdateTimeRequest.valid (m : UpdateTimeRequest) : Prop :=
  m.network_id < 2 ^ 16 ∧ m.time < 2 ^ 32

def create_UpdateTimeRequest (m : UpdateTimeRequest) : List Nat :=
  mkFrame (gBody 0x4022 0x06 m.chunks)

def read_UpdateTimeRequest (buf : List Nat) : Except DecodeError UpdateTimeRequest :=
  match gRead 0x4022 0x06 UpdateTimeRequest.fieldSpec buf with
  | .error e => .error e
  | .ok [n, t] => .ok ⟨fromBE n, fromBE t⟩
  | .ok _ => .error .eof

/-- Handshake request (messages.rs:322-336), command 0x4003, length 0x04,
network id then constant u16 0x0500. -/
structure HandshakeRequest where
  network_id : Nat
deriving DecidableEq

def HandshakeRequest.fieldSpec : FieldSpec := [(2, none), (2, some 0x0500)]

def HandshakeRequest.chunks (m : HandshakeRequest) : List (List Nat) :=
  [toBE 2 m.network_id, toBE 2 0x0500]

def HandshakeRequest.valid (m : HandshakeRequest) : Prop := m.network_id < 2 ^ 16

def create_HandshakeRequest (m : HandshakeRequest) : List Nat :=
  mkFrame (gBody 0x4003 0x04 m.chunks)

def read_HandshakeRequest (buf : List Nat) : Except DecodeError HandshakeRequest :=
  match gRead 0x4003 0x04 HandshakeRequest.fieldSpec buf with
  | .error e => .error e
  | .ok [n, _] => .ok ⟨fromBE n⟩
  | .ok _ => .error .eof

/-- Samples request (messages.rs:338-353), command 0x4024, length 0x06,
network id, channel id, constant u16 0x0a00. -/
structure SamplesRequest where
  network_id : Nat
  channel_id : Nat
deriving DecidableEq

def SamplesRequest.fieldSpec : FieldSpec := [(2, none), (2, none), (2, some 0x0a00)]

def SamplesRequest.chunks (m : SamplesRequest) : List (List Nat) :=
  [toBE 2 m.network_id, toBE 2 m.channel_id, toBE 2 0x0a00]

def SamplesRequest.valid (m : SamplesRequest) : Prop :=
  m.network_id < 2 ^ 16 ∧ m.channel_id < 2 ^ 16

def create_SamplesRequest (m : SamplesRequest) : List Nat :=
  mkFrame (gBody 0x4024 0x06 m.chunks)

def read_SamplesRequest (buf : List Nat) : Except DecodeError SamplesRequest :=
  match gRead 0x4024 0x06 SamplesRequest.fieldSpec buf with
  | .error e => .error e
  | .ok [n, c, _] => .ok ⟨fromBE n, fromBE c⟩
  | .ok _ => .error .eof

/-- Schedule request (messages.rs:355-369), command 0x4023, length 0x3b,
network id, channel id (u8), 56-byte schedule. -/
structure ScheduleRequest where
  network_id : Nat
  channel_id : Nat
  schedule : List Nat
deriving DecidableEq

def ScheduleRequest.fieldSpec : FieldSpec := [(2, none), (1, none), (56, none)]

def ScheduleRequest.chunks (m : ScheduleRequest) : List (List Nat) :=
  [toBE 2 m.network_id, toBE 1 m.channel_id, m.schedule]

def ScheduleRequest.valid (m : ScheduleRequest) : Prop :=
  m.network_id < 2 ^ 16 ∧ m.channel_id < 2 ^ 8 ∧
    m.schedule.length = 56 ∧ ∀ b ∈ m.schedule, b < 256

def create_ScheduleRequest (m : ScheduleRequest) : List Nat :=
  mkFrame (gBody 0x4023 0x3b m.chunks)

def read_ScheduleRequest (buf : List Nat) : Except DecodeError ScheduleRequest :=
  match gRead 0x4023 0x3b ScheduleRequest.fieldSpec buf with
  | .error e => .error e
  | .ok [n, c, s] => .ok ⟨fromBE n, fromBE c, s⟩
  | .ok _ => .error .eof

/-- Samples response (messages.rs:215-233), command 0x40a4, length code
`14 + 2 * sample_count` (u8 arithmetic, modeled with the wrap-around
semantics of a release build). The `time` field is `#[brw(little)]` (both
directions); the `samples` field carries `#[br(little, ...)]` only: the
generated `BinRead` decodes the u16 elements little-endian, while the
generated `BinWrite` inherits the struct-level big endianness. -/
structure SamplesResponse where
  network_id : Nat
  channel_id : Nat
  data : Nat
  time : Nat
  sample_count : Nat
  stored_sample_count : List Nat
  samples : List Nat
deriving DecidableEq

def SamplesResponse.fixedFieldSpec : FieldSpec :=
  [(2, none), (2, none), (2, none), (4, none), (1, none), (3, none)]

def SamplesResponse.chunks (m : SamplesResponse) : List (List Nat) :=
  [toBE 2 m.network_id, toBE 2 m.channel_id, toBE 2 m.data, toLE 4 m.time,
    toBE 1 m.sample_count, m.stored_sample_count, (m.samples.map (toBE 2)).flatten]

def SamplesResponse.valid (m : SamplesResponse) : Prop :=
  m.network_id < 2 ^ 16 ∧ m.channel_id < 2 ^ 16 ∧ m.data < 2 ^ 16 ∧
    m.time < 2 ^ 32 ∧ m.sample_count < 2 ^ 8 ∧
    m.stored_sample_count.length = 3 ∧ (∀ b ∈ m.stored_sample_count, b < 256) ∧
    (∀ v ∈ m.samples, v < 2 ^ 16) ∧ m.sample_count = m.samples.length

def create_SamplesResponse (m : SamplesResponse) : List Nat :=
  mkFrame (gBody 0x40a4 ((14 + 2 * m.sample_count) % 256) m.chunks)

def read_SamplesResponse (buf : List Nat) : Except DecodeError SamplesResponse :=
  match readHeader buf with
  | .error e => .error e
  | .ok (cmdB, lenB, r) =>
    match splitFields SamplesResponse.fixedFieldSpec r with
    | .error e => .error e
    | .ok (chunks, r) =>
      match chunks with
      | [nB, chB, dB, tB, scB, stB] =>
        match rdSamples (fromBE scB) r with
        | .error e => .error e
        | .ok (vals, raw, r) =>
          match rd1 r with
          | .error e => .error e
          | .ok (ck, _) =>
            if fromBE cmdB = 0x40a4 then
              if lenB = (14 + 2 * fromBE scB) % 256 then
                if ck = (csReadBytes csInit
                    ((cmdB ++ lenB :: ((nB ++ chB ++ dB ++ tB ++ scB ++ stB) ++ raw)) ++ [ck])).checksum then
                  .ok ⟨fromBE nB, fromBE chB, fromBE dB, fromLE tB, fromBE scB, stB, vals⟩
                else .error .checksumMismatch
              else .error .lengthMismatch
            else .error .commandMismatch
      | _ => .error .eof

/- =============== Corrupted-frame behavior, per message type =============== -/

theorem gRead_corruptLast {cmd lenCode : Nat} {fs : FieldSpec} {chunks : List (List Nat)}
    (hcmd : cmd < 65536) (hw : ChunksFit fs chunks) (hc : constsOk fs chunks = true) :
    gRead cmd lenCode fs (corruptLast (mkFrame (gBody cmd lenCode chunks))) =
      .error .checksumMismatch := by
  rw [corruptLast_mkFrame, gRead_frame hcmd hw hc, if_neg (succ_mod_256_ne _)]

theorem gRead_corruptCmd (cmd lenCode : Nat) {fs : FieldSpec}
    {chunks : List (List Nat)} (hw : ChunksFit fs chunks) (h l : Nat)
    (hhl : toBE 2 cmd = [h, l])
    (hne : fromBE [(h + 1) % 256, (l + 1) % 256] ≠ cmd) :
    gRead cmd lenCode fs (corruptCmd (mkFrame (gBody cmd lenCode chunks))) =
      .error .commandMismatch := by
  rw [gBody, hhl]
  rw [show mkFrame ([h, l] ++ lenCode :: chunks.flatten) =
        0x02 :: h :: l :: ((lenCode :: chunks.flatten) ++
          [csWrite 0 ([h, l] ++ lenCode :: chunks.flatten)]) from rfl]
  rw [corruptCmd_frame]
  rw [show ((lenCode :: chunks.flatten) ++
        [csWrite 0 ((h + 1) % 256 :: (l + 1) % 256 :: (lenCode :: chunks.flatten))]) =
      lenCode :: (chunks.flatten ++
        [csWrite 0 ((h + 1) % 256 :: (l + 1) % 256 :: (lenCode :: chunks.flatten))]) from by simp]
  exact gRead_badcmd lenCode hw _ _ hne _
theorem BootResponse_chunksFit (m : BootResponse) (hv : m.valid) : ChunksFit BootResponse.fieldSpec m.chunks := by
  simp [ChunksFit, BootResponse.fieldSpec, BootResponse.chunks, List.forall₂_cons, hv.1]

theorem BootResponse_badck (m : BootResponse) (hv : m.valid) :
    read_BootResponse (corruptLast (create_BootResponse m)) = .error .checksumMismatch := by
  simp only [read_BootResponse, create_BootResponse,
    gRead_corruptLast (show (0x4084 : Nat) < 65536 from by norm_num) (BootResponse_chunksFit m hv) rfl]

theorem BootResponse_badcmd (m : BootResponse) (hv : m.valid) :
    read_BootResponse (corruptCmd (create_BootResponse m)) = .error .commandMismatch := by
  simp only [read_BootResponse, create_BootResponse,
    gRead_corruptCmd 0x4084 0x16 (BootResponse_chunksFit m hv) 0x40 0x84 (by decide) (by decide)]

theorem BootConfirmResponse_chunksFit (m : BootConfirmResponse) : ChunksFit BootConfirmResponse.fieldSpec m.chunks := by
  simp [ChunksFit, BootConfirmResponse.fieldSpec, BootConfirmResponse.chunks, List.forall₂_cons]

theorem BootConfirmResponse_badck (m : BootConfirmResponse) (_hv : m.valid) :
    read_BootConfirmResponse (corruptLast (create_BootConfirmResponse m)) = .error .checksumMismatch := by
  simp only [read_BootConfirmResponse, create_BootConfirmResponse,
    gRead_corruptLast (show (0x4080 : Nat) < 65536 from by norm_num) (BootConfirmResponse_chunksFit m) rfl]

theorem BootConfirmResponse_badcmd (m : BootConfirmResponse) (_hv : m.valid) :
    read_BootConfirmResponse (corruptCmd (create_BootConfirmResponse m)) = .error .commandMismatch := by
  simp only [read_BootConfirmResponse, create_BootConfirmResponse,
    gRead_corruptCmd 0x4080 0x01 (BootConfirmResponse_chunksFit m) 0x40 0x80 (by decide) (by decide)]

theorem BroadcastResponse_chunksFit (m : BroadcastResponse) : ChunksFit BroadcastResponse.fieldSpec m.chunks := by
  simp [ChunksFit, BroadcastResponse.fieldSpec, BroadcastResponse.chunks, List.forall₂_cons]

theorem BroadcastResponse_badck (m : BroadcastResponse) (_hv : m.valid) :
    read_BroadcastResponse (corruptLast (create_BroadcastResponse m)) = .error .checksumMismatch := by
  simp only [read_BroadcastResponse, create_BroadcastResponse,
    gRead_corruptLast (show (0xa013 : Nat) < 65536 from by norm_num) (BroadcastResponse_chunksFit m) rfl]

theorem BroadcastResponse_badcmd (m : BroadcastResponse) (_hv : m.valid) :
    read_BroadcastResponse (corruptCmd (create_BroadcastResponse m)) = .error .commandMismatch := by
  simp only [read_BroadcastResponse, create_BroadcastResponse,
    gRead_corruptCmd 0xa013 0x0b (BroadcastResponse_chunksFit m) 0xa0 0x13 (by decide) (by decide)]

theorem LockResponse_chunksFit (m : LockResponse) : ChunksFit LockResponse.fieldSpec m.chunks := by
  simp [ChunksFit, LockResponse.fieldSpec, LockResponse.chunks, List.forall₂_cons]

theorem LockResponse_badck (m : LockResponse) (_hv : m.valid) :
    read_LockResponse (corruptLast (create_LockResponse m)) = .error .checksumMismatch := by
  simp only [read_LockResponse, create_LockResponse,
    gRead_corruptLast (show (0xa0f9 : Nat) < 65536 from by norm_num) (LockResponse_chunksFit m) rfl]

theorem LockResponse_badcmd (m : LockResponse) (_hv : m.valid) :
    read_LockResponse (corruptCmd (create_LockResponse m)) = .error .commandMismatch := by
  simp only [read_LockResponse, create_LockResponse,
    gRead_corruptCmd 0xa0f9 0x01 (LockResponse_chunksFit m) 0xa0 0xf9 (by decide) (by decide)]

theorem UpdateTimeAckResponse_chunksFit (m : UpdateTimeAckResponse) : ChunksFit UpdateTimeAckResponse.fieldSpec m.chunks := by
  simp [ChunksFit, UpdateTimeAckResponse.fieldSpec, UpdateTimeAckResponse.chunks, List.forall₂_cons]

theorem UpdateTimeAckResponse_badck (m : UpdateTimeAckResponse) (_hv : m.valid) :
    read_UpdateTimeAckResponse (corruptLast (create_UpdateTimeAckResponse m)) = .error .checksumMismatch := by
  simp only [read_UpdateTimeAckResponse, create_UpdateTimeAckResponse,
    gRead_corruptLast (show (0x4022 : Nat) < 65536 from by norm_num) (UpdateTimeAckResponse_chunksFit m) rfl]

theorem UpdateTimeAckResponse_badcmd (m : UpdateTimeAckResponse) (_hv : m.valid) :
    read_UpdateTimeAckResponse (corruptCmd (create_UpdateTimeAckResponse m)) = .error .commandMismatch := by
  simp only [read_UpdateTimeAckResponse, create_UpdateTimeAckResponse,
    gRead_corruptCmd 0x4022 0x01 (UpdateTimeAckResponse_chunksFit m) 0x40 0x22 (by decide) (by decide)]

theorem UpdateTimeResponse_chunksFit (m : UpdateTimeResponse) : ChunksFit UpdateTimeResponse.fieldSpec m.chunks := by
  simp [ChunksFit, UpdateTimeResponse.fieldSpec, UpdateTimeResponse.chunks, List.forall₂_cons]

theorem UpdateTimeResponse_badck (m : UpdateTimeResponse) (_hv : m.valid) :
    read_UpdateTimeResponse (corruptLast (create_UpdateTimeResponse m)) = .error .checksumMismatch := by
  simp only [read_UpdateTimeResponse, create_UpdateTimeResponse,
    gRead_corruptLast (show (0x40a2 : Nat) < 65536 from by norm_num) (UpdateTimeResponse_chunksFit m) rfl]

theorem UpdateTimeResponse_badcmd (m : UpdateTimeResponse) (_hv : m.valid) :
    read_UpdateTimeResponse (corruptCmd (create_UpdateTimeResponse m)) = .error .commandMismatch := by
  simp only [read_UpdateTimeResponse, create_UpdateTimeResponse,
    gRead_corruptCmd 0x40a2 0x03 (UpdateTimeResponse_chunksFit m) 0x40 0xa2 (by decide) (by decide)]

theorem HandshakeResponse_chunksFit (m : HandshakeResponse) : ChunksFit HandshakeResponse.fieldSpec m.chunks := by
  simp [ChunksFit, HandshakeResponse.fieldSpec, HandshakeResponse.chunks, List.forall₂_cons]

theorem HandshakeResponse_badck (m : HandshakeResponse) (_hv : m.valid) :
    read_HandshakeResponse (corruptLast (create_HandshakeResponse m)) = .error .checksumMismatch := by
  simp only [read_HandshakeResponse, create_HandshakeResponse,
    gRead_corruptLast (show (0x4003 : Nat) < 65536 from by norm_num) (HandshakeResponse_chunksFit m) rfl]

theorem HandshakeResponse_badcmd (m : HandshakeResponse) (_hv : m.valid) :
    read_HandshakeResponse (corruptCmd (create_HandshakeResponse m)) = .error .commandMismatch := by
  simp only [read_HandshakeResponse, create_HandshakeResponse,
    gRead_corruptCmd 0x4003 0x01 (HandshakeResponse_chunksFit m) 0x40 0x03 (by decide) (by decide)]

theorem AckResponse_chunksFit (m : AckResponse) : ChunksFit AckResponse.fieldSpec m.chunks := by
  simp [ChunksFit, AckResponse.fieldSpec, AckResponse.chunks, List.forall₂_cons]

theorem AckResponse_badck (m : AckResponse) (_hv : m.valid) :
    read_AckResponse (corruptLast (create_AckResponse m)) = .error .checksumMismatch := by
  simp only [read_AckResponse, create_AckResponse,
    gRead_corruptLast (show (0x4024 : Nat) < 65536 from by norm_num) (AckResponse_chunksFit m) rfl]

theorem AckResponse_badcmd (m : AckResponse) (_hv : m.valid) :
    read_AckResponse (corruptCmd (create_AckResponse m)) = .error .commandMismatch := by
  simp only [read_AckResponse, create_AckResponse,
    gRead_corruptCmd 0x4024 0x01 (AckResponse_chunksFit m) 0x40 0x24 (by decide) (by decide)]

theorem ScheduleResponse_chunksFit (m : ScheduleResponse) : ChunksFit ScheduleResponse.fieldSpec m.chunks := by
  simp [ChunksFit, ScheduleResponse.fieldSpec, ScheduleResponse.chunks, List.forall₂_cons]

theorem ScheduleResponse_badck (m : ScheduleResponse) (_hv : m.valid) :
    read_ScheduleResponse (corruptLast (create_ScheduleResponse m)) = .error .checksumMismatch := by
  simp only [read_ScheduleResponse, create_ScheduleResponse,
    gRead_corruptLast (show (0x4023 : Nat) < 65536 from by norm_num) (ScheduleResponse_chunksFit m) rfl]

theorem ScheduleResponse_badcmd (m : ScheduleResponse) (_hv : m.valid) :
    read_ScheduleResponse (corruptCmd (create_ScheduleResponse m)) = .error .commandMismatch := by
  simp only [read_ScheduleResponse, create_ScheduleResponse,
    gRead_corruptCmd 0x4023 0x01 (ScheduleResponse_chunksFit m) 0x40 0x23 (by decide) (by decide)]

theorem BootRequest_chunksFit (m : BootRequest) : ChunksFit BootRequest.fieldSpec m.chunks := by
  simp only [BootRequest.fieldSpec, BootRequest.chunks, ChunksFit]
  exact .nil

theorem BootRequest_badck (m : BootRequest) (_hv : m.valid) :
    read_BootRequest (corruptLast (create_BootRequest m)) = .error .checksumMismatch := by
  simp only [read_BootRequest, create_BootRequest,
    gRead_corruptLast (show (0x4004 : Nat) < 65536 from by norm_num) (BootRequest_chunksFit m) rfl]

theorem BootRequest_badcmd (m : BootRequest) (_hv : m.valid) :
    read_BootRequest (corruptCmd (create_BootRequest m)) = .error .commandMismatch := by
  simp only [read_BootRequest, create_BootRequest,
    gRead_corruptCmd 0x4004 0x00 (BootRequest_chunksFit m) 0x40 0x04 (by decide) (by decide)]

theorem BootConfirmRequest_chunksFit (m : BootConfirmRequest) : ChunksFit BootConfirmRequest.fieldSpec m.chunks := by
  simp only [BootConfirmRequest.fieldSpec, BootConfirmRequest.chunks, ChunksFit]
  exact .nil

theorem BootConfirmRequest_badck (m : BootConfirmRequest) (_hv : m.valid) :
    read_BootConfirmRequest (corruptLast (create_BootConfirmRequest m)) = .error .checksumMismatch := by
  simp only [read_BootConfirmRequest, create_BootConfirmRequest,
    gRead_corruptLast (show (0x4000 : Nat) < 65536 from by norm_num) (BootConfirmRequest_chunksFit m) rfl]

theorem BootConfirmRequest_badcmd (m : BootConfirmRequest) (_hv : m.valid) :
    read_BootConfirmRequest (corruptCmd (create_BootConfirmRequest m)) = .error .commandMismatch := by
  simp only [read_BootConfirmRequest, create_BootConfirmRequest,
    gRead_corruptCmd 0x4000 0x00 (BootConfirmRequest_chunksFit m) 0x40 0x00 (by decide) (by decide)]

theorem UnlockRequest_chunksFit (m : UnlockRequest) : ChunksFit UnlockRequest.fieldSpec m.chunks := by
  simp [ChunksFit, UnlockRequest.fieldSpec, UnlockRequest.chunks, List.forall₂_cons]

theorem UnlockRequest_badck (m : UnlockRequest) (_hv : m.valid) :
    read_UnlockRequest (corruptLast (create_UnlockRequest m)) = .error .checksumMismatch := by
  simp only [read_UnlockRequest, create_UnlockRequest,
    gRead_corruptLast (show (0xa236 : Nat) < 65536 from by norm_num) (UnlockRequest_chunksFit m) rfl]

theorem UnlockRequest_badcmd (m : UnlockRequest) (_hv : m.valid) :
    read_UnlockRequest (corruptCmd (create_UnlockRequest m)) = .error .commandMismatch := by
  simp only [read_UnlockRequest, create_UnlockRequest,
    gRead_corruptCmd 0xa236 0x04 (UnlockRequest_chunksFit m) 0xa2 0x36 (by decide) (by decide)]

theorem LockRequest_chunksFit (m : LockRequest) : ChunksFit LockRequest.fieldSpec m.chunks := by
  simp [ChunksFit, LockRequest.fieldSpec, LockRequest.chunks, List.forall₂_cons]

theorem LockRequest_badck (m : LockRequest) (_hv : m.valid) :
    read_LockRequest (corruptLast (create_LockRequest m)) = .error .checksumMismatch := by
  simp only [read_LockRequest, create_LockRequest,
    gRead_corruptLast (show (0xa236 : Nat) < 65536 from by norm_num) (LockRequest_chunksFit m) rfl]

theorem LockRequest_badcmd (m : LockRequest) (_hv : m.valid) :
    read_LockRequest (corruptCmd (create_LockRequest m)) = .error .commandMismatch := by
  simp only [read_LockRequest, create_LockRequest,
    gRead_corruptCmd 0xa236 0x04 (LockRequest_chunksFit m) 0xa2 0x36 (by decide) (by decide)]

theorem UpdateTimeRequest_chunksFit (m : UpdateTimeRequest) : ChunksFit UpdateTimeRequest.fieldSpec m.chunks := by
  simp [ChunksFit, UpdateTimeRequest.fieldSpec, UpdateTimeRequest.chunks, List.forall₂_cons]

theorem UpdateTimeRequest_badck (m : UpdateTimeRequest) (_hv : m.valid) :
    read_UpdateTimeRequest (corruptLast (create_UpdateTimeRequest m)) = .error .checksumMismatch := by
  simp only [read_UpdateTimeRequest, create_UpdateTimeRequest,
    gRead_corruptLast (show (0x4022 : Nat) < 65536 from by norm_num) (UpdateTimeRequest_chunksFit m) rfl]

theorem UpdateTimeRequest_badcmd (m : UpdateTimeRequest) (_hv : m.valid) :
    read_UpdateTimeRequest (corruptCmd (create_UpdateTimeRequest m)) = .error .commandMismatch := by
  simp only [read_UpdateTimeRequest, create_UpdateTimeRequest,
    gRead_corruptCmd 0x4022 0x06 (UpdateTimeRequest_chunksFit m) 0x40 0x22 (by decide) (by decide)]

theorem HandshakeRequest_chunksFit (m : HandshakeRequest) : ChunksFit HandshakeRequest.fieldSpec m.chunks := by
  simp [ChunksFit, HandshakeRequest.fieldSpec, HandshakeRequest.chunks, List.forall₂_cons]

theorem HandshakeRequest_badck (m : HandshakeRequest) (_hv : m.valid) :
    read_HandshakeRequest (corruptLast (create_HandshakeRequest m)) = .error .checksumMismatch := by
  simp only [read_HandshakeRequest, create_HandshakeRequest,
    gRead_corruptLast (show (0x4003 : Nat) < 65536 from by norm_num) (HandshakeRequest_chunksFit m) rfl]

theorem HandshakeRequest_badcmd (m : HandshakeRequest) (_hv : m.valid) :
    read_HandshakeRequest (corruptCmd (create_HandshakeRequest m)) = .error .commandMismatch := by
  simp only [read_HandshakeRequest, create_HandshakeRequest,
    gRead_corruptCmd 0x4003 0x04 (HandshakeRequest_chunksFit m) 0x40 0x03 (by decide) (by decide)]

theorem SamplesRequest_chunksFit (m : SamplesRequest) : ChunksFit SamplesRequest.fieldSpec m.chunks := by
  simp [ChunksFit, SamplesRequest.fieldSpec, SamplesRequest.chunks, List.forall₂_cons]

theorem SamplesRequest_badck (m : SamplesRequest) (_hv : m.valid) :
    read_SamplesRequest (corruptLast (create_SamplesRequest m)) = .error .checksumMismatch := by
  simp only [read_SamplesRequest, create_SamplesRequest,
    gRead_corruptLast (show (0x4024 : Nat) < 65536 from by norm_num) (SamplesRequest_chunksFit m) rfl]

theorem SamplesRequest_badcmd (m : SamplesRequest) (_hv : m.valid) :
    read_SamplesRequest (corruptCmd (create_SamplesRequest m)) = .error .commandMismatch := by
  simp only [read_SamplesRequest, create_SamplesRequest,
    gRead_corruptCmd 0x4024 0x06 (SamplesRequest_chunksFit m) 0x40 0x24 (by decide) (by decide)]

theorem ScheduleRequest_chunksFit (m : ScheduleRequest) (hv : m.valid) : ChunksFit ScheduleRequest.fieldSpec m.chunks := by
  simp [ChunksFit, ScheduleRequest.fieldSpec, ScheduleRequest.chunks, List.forall₂_cons, hv.2.2.1]

theorem ScheduleRequest_badck (m : ScheduleRequest) (hv : m.valid) :
    read_ScheduleRequest (corruptLast (create_ScheduleRequest m)) = .error .checksumMismatch := by
  simp only [read_ScheduleRequest, create_ScheduleRequest,
    gRead_corruptLast (show (0x4023 : Nat) < 65536 from by norm_num) (ScheduleRequest_chunksFit m hv) rfl]

theorem ScheduleRequest_badcmd (m : ScheduleRequest) (hv : m.valid) :
    read_ScheduleRequest (corruptCmd (create_ScheduleRequest m)) = .error .commandMismatch := by
  simp only [read_ScheduleRequest, create_ScheduleRequest,
    gRead_corruptCmd 0x4023 0x3b (ScheduleRequest_chunksFit m hv) 0x40 0x23 (by decide) (by decide)]

set_option maxRecDepth 4096 in
theorem read_SamplesResponse_frame (m : SamplesResponse) (hv : m.valid) (x : Nat) :
    read_SamplesResponse
        (0x02 :: (gBody 0x40a4 ((14 + 2 * m.sample_count) % 256) m.chunks ++ [x])) =
      if x = csWrite 0 (gBody 0x40a4 ((14 + 2 * m.sample_count) % 256) m.chunks)
      then .ok ⟨m.network_id, m.channel_id, m.data, m.time, m.sample_count,
                m.stored_sample_count, m.samples.map (fun v => fromLE (toBE 2 v))⟩
      else .error .checksumMismatch := by
  obtain ⟨h1, h2, h3, h4, h5, h6, h7, h8, h9⟩ := hv
  have hfit : ChunksFit SamplesResponse.fixedFieldSpec
      [toBE 2 m.network_id, toBE 2 m.channel_id, toBE 2 m.data, toLE 4 m.time,
        toBE 1 m.sample_count, m.stored_sample_count] := by
    simp [ChunksFit, SamplesResponse.fixedFieldSpec, List.forall₂_cons, h6]
  have hsc : fromBE (toBE 1 m.sample_count) = m.sample_count :=
    fromBE_toBE (by simpa using h5)
  have hws : ∀ c ∈ m.samples.map (toBE 2), c.length = 2 := by
    intro c hc
    rcases List.mem_map.mp hc with ⟨v, _, rfl⟩
    simp
  have hcount : m.sample_count = (m.samples.map (toBE 2)).length := by simp [h9]
  rw [read_SamplesResponse]
  rw [show gBody 0x40a4 ((14 + 2 * m.sample_count) % 256) m.chunks ++ [x] =
        toBE 2 0x40a4 ++ ((14 + 2 * m.sample_count) % 256) ::
          ([toBE 2 m.network_id, toBE 2 m.channel_id, toBE 2 m.data, toLE 4 m.time,
            toBE 1 m.sample_count, m.stored_sample_count].flatten ++
            ((m.samples.map (toBE 2)).flatten ++ [x])) from by
      simp [gBody, SamplesResponse.chunks]]
  rw [readHeader_chunk _ (length_toBE 2 0x40a4) _ _]
  simp only [splitFields_chunks hfit]
  rw [hsc]
  rw [hcount]
  simp only [rdSamples_chunks _ hws, rd1_cons]
  rw [csReadBytes_exposed]
  have e1 : fromBE (toBE 2 m.network_id) = m.network_id := fromBE_toBE (by simpa using h1)
  have e2 : fromBE (toBE 2 m.channel_id) = m.channel_id := fromBE_toBE (by simpa using h2)
  have e3 : fromBE (toBE 2 m.data) = m.data := fromBE_toBE (by simpa using h3)
  have e4 : fromLE (toLE 4 m.time) = m.time := fromLE_toLE (by simpa using h4)
  rw [fromBE_toBE (show (16548 : Nat) < 256 ^ 2 from by norm_num)]
  simp [gBody, SamplesResponse.chunks, e1, e2, e3, e4, List.map_map, Function.comp_def, csInit, h9]

set_option maxRecDepth 4096 in
theorem read_SamplesResponse_badcmd_frame (m : SamplesResponse) (hv : m.valid)
    (c1 c2 x : Nat) (hne : fromBE [c1, c2] ≠ 0x40a4) :
    read_SamplesResponse (0x02 :: c1 :: c2 ::
        ((((14 + 2 * m.sample_count) % 256) :: m.chunks.flatten) ++ [x])) =
      .error .commandMismatch := by
  obtain ⟨h1, h2, h3, h4, h5, h6, h7, h8, h9⟩ := hv
  have hfit : ChunksFit SamplesResponse.fixedFieldSpec
      [toBE 2 m.network_id, toBE 2 m.channel_id, toBE 2 m.data, toLE 4 m.time,
        toBE 1 m.sample_count, m.stored_sample_count] := by
    simp [ChunksFit, SamplesResponse.fixedFieldSpec, List.forall₂_cons, h6]
  have hsc : fromBE (toBE 1 m.sample_count) = m.sample_count :=
    fromBE_toBE (by simpa using h5)
  have hws : ∀ c ∈ m.samples.map (toBE 2), c.length = 2 := by
    intro c hc
    rcases List.mem_map.mp hc with ⟨v, _, rfl⟩
    simp
  have hcount : m.sample_count = (m.samples.map (toBE 2)).length := by simp [h9]
  rw [read_SamplesResponse]
  rw [show (((14 + 2 * m.sample_count) % 256) :: m.chunks.flatten) ++ [x] =
        ((14 + 2 * m.sample_count) % 256) ::
          ([toBE 2 m.network_id, toBE 2 m.channel_id, toBE 2 m.data, toLE 4 m.time,
            toBE 1 m.sample_count, m.stored_sample_count].flatten ++
            ((m.samples.map (toBE 2)).flatten ++ [x])) from by
      simp [SamplesResponse.chunks]]
  rw [readHeader_cons]
  simp only [splitFields_chunks hfit]
  rw [hsc]
  rw [hcount]
  simp only [rdSamples_chunks _ hws, rd1_cons]
  rw [if_neg hne]

theorem SamplesResponse_badck (m : SamplesResponse) (hv : m.valid) :
    read_SamplesResponse (corruptLast (create_SamplesResponse m)) =
      .error .checksumMismatch := by
  rw [create_SamplesResponse, corruptLast_mkFrame, read_SamplesResponse_frame m hv,
    if_neg (succ_mod_256_ne _)]

theorem SamplesResponse_badcmd (m : SamplesResponse) (hv : m.valid) :
    read_SamplesResponse (corruptCmd (create_SamplesResponse m)) =
      .error .commandMismatch := by
  rw [create_SamplesResponse, gBody, show toBE 2 0x40a4 = [0x40, 0xa4] from by decide]
  rw [show mkFrame ([0x40, 0xa4] ++ ((14 + 2 * m.sample_count) % 256) :: m.chunks.flatten) =
        0x02 :: 0x40 :: 0xa4 :: ((((14 + 2 * m.sample_count) % 256) :: m.chunks.flatten) ++
          [csWrite 0 ([0x40, 0xa4] ++ ((14 + 2 * m.sample_count) % 256) :: m.chunks.flatten)])
      from rfl]
  rw [corruptCmd_frame]
  exact read_SamplesResponse_badcmd_frame m hv _ _ _ (by decide)

/- =============== The catalog as one type, for catalog-wide claims =============== -/

/-- One value of any message type of the catalog. -/
inductive Msg where
  | bootResponse (m : BootResponse)
  | bootConfirmResponse (m : BootConfirmResponse)
  | broadcastResponse (m : BroadcastResponse)
  | lockResponse (m : LockResponse)
  | updateTimeAckResponse (m : UpdateTimeAckResponse)
  | updateTimeResponse (m : UpdateTimeResponse)
  | handshakeResponse (m : HandshakeResponse)
  | ackResponse (m : AckResponse)
  | samplesResponse (m : SamplesResponse)
  | scheduleResponse (m : ScheduleResponse)
  | bootRequest (m : BootRequest)
  | bootConfirmRequest (m : BootConfirmRequest)
  | unlockRequest (m : UnlockRequest)
  | lockRequest (m : LockRequest)
  | updateTimeRequest (m : UpdateTimeRequest)
  | handshakeRequest (m : HandshakeRequest)
  | samplesRequest (m : SamplesRequest)
  | scheduleRequest (m : ScheduleRequest)
deriving DecidableEq

/-- The per-type `valid` predicate of a message. -/
def msgValid : Msg → Prop
  | .bootResponse m => m.valid
  | .bootConfirmResponse m => m.valid
  | .broadcastResponse m => m.valid
  | .lockResponse m => m.valid
  | .updateTimeAckResponse m => m.valid
  | .updateTimeResponse m => m.valid
  | .handshakeResponse m => m.valid
  | .ackResponse m => m.valid
  | .samplesResponse m => m.valid
  | .scheduleResponse m => m.valid
  | .bootRequest m => m.valid
  | .bootConfirmRequest m => m.valid
  | .unlockRequest m => m.valid
  | .lockRequest m => m.valid
  | .updateTimeRequest m => m.valid
  | .handshakeRequest m => m.valid
  | .samplesRequest m => m.valid
  | .scheduleRequest m => m.valid

/-- `create_message_buf` dispatched on the message's own type. -/
def msgCreate : Msg → List Nat
  | .bootResponse m => create_BootResponse m
  | .bootConfirmResponse m => create_BootConfirmResponse m
  | .broadcastResponse m => create_BroadcastResponse m
  | .lockResponse m => create_LockResponse m
  | .updateTimeAckResponse m => create_UpdateTimeAckResponse m
  | .updateTimeResponse m => create_UpdateTimeResponse m
  | .handshakeResponse m => create_HandshakeResponse m
  | .ackResponse m => create_AckResponse m
  | .samplesResponse m => create_SamplesResponse m
  | .scheduleResponse m => create_ScheduleResponse m
  | .bootRequest m => create_BootRequest m
  | .bootConfirmRequest m => create_BootConfirmRequest m
  | .unlockRequest m => create_UnlockRequest m
  | .lockRequest m => create_LockRequest m
  | .updateTimeRequest m => create_UpdateTimeRequest m
  | .handshakeRequest m => create_HandshakeRequest m
  | .samplesRequest m => create_SamplesRequest m
  | .scheduleRequest m => create_ScheduleRequest m

/-- `read_message_from_buf::<T>` for the message's own type `T`. -/
def msgReadSelf : Msg → List Nat → Except DecodeError Msg
  | .bootResponse _, buf =>
    match read_BootResponse buf with
    | .error e => .error e
    | .ok m => .ok (.bootResponse m)
  | .bootConfirmResponse _, buf =>
    match read_BootConfirmResponse buf with
    | .error e => .error e
    | .ok m => .ok (.bootConfirmResponse m)
  | .broadcastResponse _, buf =>
    match read_BroadcastResponse buf with
    | .error e => .error e
    | .ok m => .ok (.broadcastResponse m)
  | .lockResponse _, buf =>
    match read_LockResponse buf with
    | .error e => .error e
    | .ok m => .ok (.lockResponse m)
  | .updateTimeAckResponse _, buf =>
    match read_UpdateTimeAckResponse buf with
    | .error e => .error e
    | .ok m => .ok (.updateTimeAckResponse m)
  | .updateTimeResponse _, buf =>
    match read_UpdateTimeResponse buf with
    | .error e => .error e
    | .ok m => .ok (.updateTimeResponse m)
  | .handshakeResponse _, buf =>
    match read_HandshakeResponse buf with
    | .error e => .error e
    | .ok m => .ok (.handshakeResponse m)
  | .ackResponse _, buf =>
    match read_AckResponse buf with
    | .error e => .error e
    | .ok m => .ok (.ackResponse m)
  | .samplesResponse _, buf =>
    match read_SamplesResponse buf with
    | .error e => .error e
    | .ok m => .ok (.samplesResponse m)
  | .scheduleResponse _, buf =>
    match read_ScheduleResponse buf with
    | .error e => .error e
    | .ok m => .ok (.scheduleResponse m)
  | .bootRequest _, buf =>
    match read_BootRequest buf with
    | .error e => .error e
    | .ok m => .ok (.bootRequest m)
  | .bootConfirmRequest _, buf =>
    match read_BootConfirmRequest buf with
    | .error e => .error e
    | .ok m => .ok (.bootConfirmRequest m)
  | .unlockRequest _, buf =>
    match read_UnlockRequest buf with
    | .error e => .error e
    | .ok m => .ok (.unlockRequest m)
  | .lockRequest _, buf =>
    match read_LockRequest buf with
    | .error e => .error e
    | .ok m => .ok (.lockRequest m)
  | .updateTimeRequest _, buf =>
    match read_UpdateTimeRequest buf with
    | .error e => .error e
    | .ok m => .ok (.updateTimeRequest m)
  | .handshakeRequest _, buf =>
    match read_HandshakeRequest buf with
    | .error e => .error e
    | .ok m => .ok (.handshakeRequest m)
  | .samplesRequest _, buf =>
    match read_SamplesRequest buf with
    | .error e => .error e
    | .ok m => .ok (.samplesRequest m)
  | .scheduleRequest _, buf =>
    match read_ScheduleRequest buf with
    | .error e => .error e
    | .ok m => .ok (.scheduleRequest m)

theorem mkFrame_checksum (b : List Nat) :
    (mkFrame b).getLast? = some (csWrite 0 (((mkFrame b).drop 1).dropLast)) := by
  have h1 : ((mkFrame b).drop 1).dropLast = b := by
    show (b ++ [csWrite 0 b]).dropLast = b
    rw [List.dropLast_concat]
  rw [h1]
  show ((0x02 :: b) ++ [csWrite 0 b]).getLast? = _
  rw [List.getLast?_concat]

/-- C4: for every valid encoded frame of every message type, the trailing
checksum byte is the XOR of the frame bytes from index 1 (first command
byte) through the last payload byte (magic and checksum excluded); and
decoding any such frame with its last byte incremented by 1 (u8 wrap) fails
with `checksumMismatch` and no other error kind. -/
theorem c4_checksum_frame :
    (∀ m : Msg, msgValid m →
      (msgCreate m).getLast? = some (csWrite 0 (((msgCreate m).drop 1).dropLast))) ∧
    (∀ m : Msg, msgValid m →
      msgReadSelf m (corruptLast (msgCreate m)) = .error .checksumMismatch) := by
  constructor
  · intro m _hv
    cases m <;> exact mkFrame_checksum _
  · intro m hv
    cases m with
    | bootResponse s => simp only [msgReadSelf, msgCreate, BootResponse_badck s hv]
    | bootConfirmResponse s => simp only [msgReadSelf, msgCreate, BootConfirmResponse_badck s hv]
    | broadcastResponse s => simp only [msgReadSelf, msgCreate, BroadcastResponse_badck s hv]
    | lockResponse s => simp only [msgReadSelf, msgCreate, LockResponse_badck s hv]
    | updateTimeAckResponse s => simp only [msgReadSelf, msgCreate, UpdateTimeAckResponse_badck s hv]
    | updateTimeResponse s => simp only [msgReadSelf, msgCreate, UpdateTimeResponse_badck s hv]
    | handshakeResponse s => simp only [msgReadSelf, msgCreate, HandshakeResponse_badck s hv]
    | ackResponse s => simp only [msgReadSelf, msgCreate, AckResponse_badck s hv]
    | samplesResponse s => simp only [msgReadSelf, msgCreate, SamplesResponse_badck s hv]
    | scheduleResponse s => simp only [msgReadSelf, msgCreate, ScheduleResponse_badck s hv]
    | bootRequest s => simp only [msgReadSelf, msgCreate, BootRequest_badck s hv]
    | bootConfirmRequest s => simp only [msgReadSelf, msgCreate, BootConfirmRequest_badck s hv]
    | unlockRequest s => simp only [msgReadSelf, msgCreate, UnlockRequest_badck s hv]
    | lockRequest s => simp only [msgReadSelf, msgCreate, LockRequest_badck s hv]
    | updateTimeRequest s => simp only [msgReadSelf, msgCreate, UpdateTimeRequest_badck s hv]
    | handshakeRequest s => simp only [msgReadSelf, msgCreate, HandshakeRequest_badck s hv]
    | samplesRequest s => simp only [msgReadSelf, msgCreate, SamplesRequest_badck s hv]
    | scheduleRequest s => simp only [msgReadSelf, msgCreate, ScheduleRequest_badck s hv]

theorem c4_checksum_frame_witness :
    msgValid (Msg.samplesResponse ⟨1, 2, 3, 5, 1, [0, 0, 0], [1]⟩) ∧
    ((msgCreate (Msg.samplesResponse ⟨1, 2, 3, 5, 1, [0, 0, 0], [1]⟩)).getLast? =
      some (csWrite 0
        (((msgCreate (Msg.samplesResponse ⟨1, 2, 3, 5, 1, [0, 0, 0], [1]⟩)).drop 1).dropLast))) ∧
    msgReadSelf (Msg.samplesResponse ⟨1, 2, 3, 5, 1, [0, 0, 0], [1]⟩)
        (corruptLast (msgCreate (Msg.samplesResponse ⟨1, 2, 3, 5, 1, [0, 0, 0], [1]⟩))) =
      .error .checksumMismatch ∧
    msgReadSelf (Msg.bootRequest ⟨⟩) (corruptLast (msgCreate (Msg.bootRequest ⟨⟩))) =
      .error .checksumMismatch := by
  have hv1 : msgValid (Msg.samplesResponse ⟨1, 2, 3, 5, 1, [0, 0, 0], [1]⟩) :=
    ⟨by decide, by decide, by decide, by decide, by decide, by decide, by decide,
      by decide, by decide⟩
  exact ⟨hv1, c4_checksum_frame.1 _ hv1, c4_checksum_frame.2 _ hv1,
    c4_checksum_frame.2 _ trivial⟩

/-- C5: decoding any valid frame whose two command bytes were incremented by
one (checksum re-derived so only the command id is inconsistent) fails with
`commandMismatch`, for every message type. -/
theorem c5_command_isolation :
    ∀ m : Msg, msgValid m →
      msgReadSelf m (corruptCmd (msgCreate m)) = .error .commandMismatch := by
  intro m hv
  cases m with
  | bootResponse s => simp only [msgReadSelf, msgCreate, BootResponse_badcmd s hv]
  | bootConfirmResponse s => simp only [msgReadSelf, msgCreate, BootConfirmResponse_badcmd s hv]
  | broadcastResponse s => simp only [msgReadSelf, msgCreate, BroadcastResponse_badcmd s hv]
  | lockResponse s => simp only [msgReadSelf, msgCreate, LockResponse_badcmd s hv]
  | updateTimeAckResponse s => simp only [msgReadSelf, msgCreate, UpdateTimeAckResponse_badcmd s hv]
  | updateTimeResponse s => simp only [msgReadSelf, msgCreate, UpdateTimeResponse_badcmd s hv]
  | handshakeResponse s => simp only [msgReadSelf, msgCreate, HandshakeResponse_badcmd s hv]
  | ackResponse s => simp only [msgReadSelf, msgCreate, AckResponse_badcmd s hv]
  | samplesResponse s => simp only [msgReadSelf, msgCreate, SamplesResponse_badcmd s hv]
  | scheduleResponse s => simp only [msgReadSelf, msgCreate, ScheduleResponse_badcmd s hv]
  | bootRequest s => simp only [msgReadSelf, msgCreate, BootRequest_badcmd s hv]
  | bootConfirmRequest s => simp only [msgReadSelf, msgCreate, BootConfirmRequest_badcmd s hv]
  | unlockRequest s => simp only [msgReadSelf, msgCreate, UnlockRequest_badcmd s hv]
  | lockRequest s => simp only [msgReadSelf, msgCreate, LockRequest_badcmd s hv]
  | updateTimeRequest s => simp only [msgReadSelf, msgCreate, UpdateTimeRequest_badcmd s hv]
  | handshakeRequest s => simp only [msgReadSelf, msgCreate, HandshakeRequest_badcmd s hv]
  | samplesRequest s => simp only [msgReadSelf, msgCreate, SamplesRequest_badcmd s hv]
  | scheduleRequest s => simp only [msgReadSelf, msgCreate, ScheduleRequest_badcmd s hv]

theorem c5_command_isolation_witness :
    msgValid (Msg.broadcastResponse ⟨0x0102, 0x0102030405060708, 1⟩) ∧
    msgReadSelf (Msg.broadcastResponse ⟨0x0102, 0x0102030405060708, 1⟩)
        (corruptCmd (msgCreate (Msg.broadcastResponse ⟨0x0102, 0x0102030405060708, 1⟩))) =
      .error .commandMismatch ∧
    msgReadSelf (Msg.lockResponse ⟨⟩) (corruptCmd (msgCreate (Msg.lockResponse ⟨⟩))) =
      .error .commandMismatch := by
  have hv1 : msgValid (Msg.broadcastResponse ⟨0x0102, 0x0102030405060708, 1⟩) :=
    ⟨by decide, by decide, by decide⟩
  exact ⟨hv1, c5_command_isolation _ hv1, c5_command_isolation _ trivial⟩

/- =============== C1, C2, C3 =============== -/

theorem gRead_mkFrame {cmd lenCode : Nat} {fs : FieldSpec} {chunks : List (List Nat)}
    (hcmd : cmd < 65536) (hw : ChunksFit fs chunks) (hc : constsOk fs chunks = true) :
    gRead cmd lenCode fs (mkFrame (gBody cmd lenCode chunks)) = .ok chunks := by
  rw [mkFrame, gRead_frame hcmd hw hc, if_pos rfl]

/-- C1: the round-trip `read_message_from_buf(create_message_buf(m)) = Ok(m)`
fails on the code. For the valid SamplesResponse below (sample_count = 1 =
len(samples)), the samples element 0x0001 is written big-endian by the
generated `BinWrite` (the field only overrides endianness with
`#[br(little, ...)]`) and read back little-endian, so the decode returns the
byte-swapped 0x0100. Likewise `UpdateTimeRequest.time` (only
`#[bw(little)]`) round-trips 1 into 0x01000000. -/
theorem c1_roundtrip_code_bug :
    SamplesResponse.valid ⟨1, 2, 3, 5, 1, [0, 0, 0], [1]⟩ ∧
    read_SamplesResponse (create_SamplesResponse ⟨1, 2, 3, 5, 1, [0, 0, 0], [1]⟩) =
      .ok ⟨1, 2, 3, 5, 1, [0, 0, 0], [0x0100]⟩ ∧
    ((⟨1, 2, 3, 5, 1, [0, 0, 0], [0x0100]⟩ : SamplesResponse) ≠ ⟨1, 2, 3, 5, 1, [0, 0, 0], [1]⟩) ∧
    UpdateTimeRequest.valid ⟨1, 1⟩ ∧
    read_UpdateTimeRequest (create_UpdateTimeRequest ⟨1, 1⟩) = .ok ⟨1, 0x01000000⟩ ∧
    ((⟨1, 0x01000000⟩ : UpdateTimeRequest) ≠ ⟨1, 1⟩) :=
  ⟨⟨by decide, by decide, by decide, by decide, by decide, by decide, by decide,
      by decide, by decide⟩,
    by decide, by decide, ⟨by decide, by decide⟩, by decide, by decide⟩

/-- C3: at the moment any byte `b` is read through the `MessageChecksum`
filter, the exposed `checksum` equals the XOR of every byte read strictly
before `b`, independent of `b` itself; reads arriving in several calls
compose like one stream. When the trailing checksum byte of a frame is
read, the exposed value is therefore the XOR of all preceding filtered
bytes. -/
theorem c3_checksum_read_lag :
    (∀ (bs : List Nat) (b : Nat),
      (csReadBytes csInit (bs ++ [b])).checksum = csWrite 0 bs) ∧
    (∀ (s : ChecksumState) (l1 l2 : List Nat),
      csReadBytes s (l1 ++ l2) = csReadBytes (csReadBytes s l1) l2) :=
  ⟨fun bs b => by rw [csReadBytes_exposed]; rfl, csReadBytes_append⟩

set_option maxRecDepth 4096 in
theorem read_SamplesResponse_raw (n0 n1 c0 c1 d0 d1 t0 t1 t2 t3 s0 s1 s2 : Nat)
    (pairs : List (Nat × Nat)) :
    read_SamplesResponse (mkFrame (gBody 0x40a4 ((14 + 2 * pairs.length) % 256)
        [[n0, n1], [c0, c1], [d0, d1], [t0, t1, t2, t3], [pairs.length], [s0, s1, s2],
          (pairs.map (fun p => [p.1, p.2])).flatten])) =
      .ok ⟨fromBE [n0, n1], fromBE [c0, c1], fromBE [d0, d1], fromLE [t0, t1, t2, t3],
        pairs.length, [s0, s1, s2], pairs.map (fun p => fromLE [p.1, p.2])⟩ := by
  have hfit : ChunksFit SamplesResponse.fixedFieldSpec
      [[n0, n1], [c0, c1], [d0, d1], [t0, t1, t2, t3], [pairs.length], [s0, s1, s2]] := by
    simp [ChunksFit, SamplesResponse.fixedFieldSpec, List.forall₂_cons]
  have hws : ∀ c ∈ pairs.map (fun p => [p.1, p.2]), c.length = 2 := by
    intro c hc
    rcases List.mem_map.mp hc with ⟨p, _, rfl⟩
    rfl
  rw [read_SamplesResponse, mkFrame]
  generalize hck : csWrite 0 (gBody 0x40a4 ((14 + 2 * pairs.length) % 256)
      [[n0, n1], [c0, c1], [d0, d1], [t0, t1, t2, t3], [pairs.length], [s0, s1, s2],
        (pairs.map (fun p => [p.1, p.2])).flatten]) = x
  rw [show gBody 0x40a4 ((14 + 2 * pairs.length) % 256)
        [[n0, n1], [c0, c1], [d0, d1], [t0, t1, t2, t3], [pairs.length], [s0, s1, s2],
          (pairs.map (fun p => [p.1, p.2])).flatten] ++ [x] =
      toBE 2 0x40a4 ++ ((14 + 2 * pairs.length) % 256) ::
        ([[n0, n1], [c0, c1], [d0, d1], [t0, t1, t2, t3], [pairs.length],
          [s0, s1, s2]].flatten ++
          ((pairs.map (fun p => [p.1, p.2])).flatten ++ [x])) from by simp [gBody]]
  rw [readHeader_chunk _ (length_toBE 2 0x40a4) _ _]
  simp only [splitFields_chunks hfit]
  rw [show fromBE [pairs.length] = pairs.length from by simp [fromBE]]
  rw [show pairs.length = (pairs.map (fun p => [p.1, p.2])).length from by simp]
  simp only [rdSamples_chunks _ hws, rd1_cons]
  rw [fromBE_toBE (show (0x40a4 : Nat) < 256 ^ 2 from by norm_num)]
  rw [csReadBytes_exposed]
  rw [← hck]
  simp [gBody, csInit, List.map_map, Function.comp_def]

theorem read_UpdateTimeRequest_raw (n0 n1 t0 t1 t2 t3 : Nat) :
    read_UpdateTimeRequest (mkFrame (gBody 0x4022 0x06 [[n0, n1], [t0, t1, t2, t3]])) =
      .ok ⟨fromBE [n0, n1], fromBE [t0, t1, t2, t3]⟩ := by
  simp only [read_UpdateTimeRequest,
    gRead_mkFrame (show (0x4022 : Nat) < 65536 from by norm_num)
      (show ChunksFit UpdateTimeRequest.fieldSpec [[n0, n1], [t0, t1, t2, t3]] from by
        simp [ChunksFit, UpdateTimeRequest.fieldSpec, List.forall₂_cons]) rfl]

theorem read_BootResponse_raw (d : List Nat) (hd : d.length = 12)
    (v0 v1 v2 v3 v4 v5 v6 v7 w0 w1 : Nat) :
    read_BootResponse (mkFrame (gBody 0x4084 0x16
        [d, [v0, v1, v2, v3, v4, v5, v6, v7], [w0, w1]])) =
      .ok ⟨d, fromBE [v0, v1, v2, v3, v4, v5, v6, v7], fromBE [w0, w1]⟩ := by
  simp only [read_BootResponse,
    gRead_mkFrame (show (0x4084 : Nat) < 65536 from by norm_num)
      (show ChunksFit BootResponse.fieldSpec
          [d, [v0, v1, v2, v3, v4, v5, v6, v7], [w0, w1]] from by
        simp [ChunksFit, BootResponse.fieldSpec, List.forall₂_cons, hd]) rfl]

theorem read_BroadcastResponse_raw (n0 n1 v0 v1 v2 v3 v4 v5 v6 v7 db : Nat) :
    read_BroadcastResponse (mkFrame (gBody 0xa013 0x0b
        [[n0, n1], [v0, v1, v2, v3, v4, v5, v6, v7], [db]])) =
      .ok ⟨fromBE [n0, n1], fromBE [v0, v1, v2, v3, v4, v5, v6, v7], db⟩ := by
  simp only [read_BroadcastResponse,
    gRead_mkFrame (show (0xa013 : Nat) < 65536 from by norm_num)
      (show ChunksFit BroadcastResponse.fieldSpec
          [[n0, n1], [v0, v1, v2, v3, v4, v5, v6, v7], [db]] from by
        simp [ChunksFit, BroadcastResponse.fieldSpec, List.forall₂_cons]) rfl]
  simp [fromBE]

theorem read_UpdateTimeResponse_raw (n0 n1 : Nat) :
    read_UpdateTimeResponse (mkFrame (gBody 0x40a2 0x03 [[n0, n1], [0x00]])) =
      .ok ⟨fromBE [n0, n1]⟩ := by
  simp only [read_UpdateTimeResponse,
    gRead_mkFrame (show (0x40a2 : Nat) < 65536 from by norm_num)
      (show ChunksFit UpdateTimeResponse.fieldSpec [[n0, n1], [0x00]] from by
        simp [ChunksFit, UpdateTimeResponse.fieldSpec, List.forall₂_cons]) rfl]

theorem read_HandshakeRequest_raw (n0 n1 : Nat) :
    read_HandshakeRequest (mkFrame (gBody 0x4003 0x04 [[n0, n1], [0x05, 0x00]])) =
      .ok ⟨fromBE [n0, n1]⟩ := by
  simp only [read_HandshakeRequest,
    gRead_mkFrame (show (0x4003 : Nat) < 65536 from by norm_num)
      (show ChunksFit HandshakeRequest.fieldSpec [[n0, n1], [0x05, 0x00]] from by
        simp [ChunksFit, HandshakeRequest.fieldSpec, List.forall₂_cons]) rfl]

theorem read_SamplesRequest_raw (n0 n1 c0 c1 : Nat) :
    read_SamplesRequest (mkFrame (gBody 0x4024 0x06 [[n0, n1], [c0, c1], [0x0a, 0x00]])) =
      .ok ⟨fromBE [n0, n1], fromBE [c0, c1]⟩ := by
  simp only [read_SamplesRequest,
    gRead_mkFrame (show (0x4024 : Nat) < 65536 from by norm_num)
      (show ChunksFit SamplesRequest.fieldSpec [[n0, n1], [c0, c1], [0x0a, 0x00]] from by
        simp [ChunksFit, SamplesRequest.fieldSpec, List.forall₂_cons]) rfl]

theorem read_ScheduleRequest_raw (n0 n1 ch : Nat) (sch : List Nat)
    (hs : sch.length = 56) :
    read_ScheduleRequest (mkFrame (gBody 0x4023 0x3b [[n0, n1], [ch], sch])) =
      .ok ⟨fromBE [n0, n1], ch, sch⟩ := by
  simp only [read_ScheduleRequest,
    gRead_mkFrame (show (0x4023 : Nat) < 65536 from by norm_num)
      (show ChunksFit ScheduleRequest.fieldSpec [[n0, n1], [ch], sch] from by
        simp [ChunksFit, ScheduleRequest.fieldSpec, List.forall₂_cons, hs]) rfl]
  simp [fromBE]

theorem create_UpdateTimeRequest_layout (net time : Nat) :
    create_UpdateTimeRequest ⟨net, time⟩ =
      [0x02, 0x40, 0x22, 0x06] ++ toBE 2 net ++ toLE 4 time ++
        [csWrite 0 ([0x40, 0x22, 0x06] ++ toBE 2 net ++ toLE 4 time)] := by
  simp [create_UpdateTimeRequest, mkFrame, gBody, UpdateTimeRequest.chunks,
    show toBE 2 0x4022 = [0x40, 0x22] from by decide]

theorem create_SamplesResponse_layout (m : SamplesResponse) :
    create_SamplesResponse m =
      [0x02, 0x40, 0xa4, (14 + 2 * m.sample_count) % 256] ++ toBE 2 m.network_id ++
        toBE 2 m.channel_id ++ toBE 2 m.data ++ toLE 4 m.time ++ toBE 1 m.sample_count ++
        m.stored_sample_count ++ (m.samples.map (toBE 2)).flatten ++
        [csWrite 0 ([0x40, 0xa4, (14 + 2 * m.sample_count) % 256] ++ toBE 2 m.network_id ++
          toBE 2 m.channel_id ++ toBE 2 m.data ++ toLE 4 m.time ++ toBE 1 m.sample_count ++
          m.stored_sample_count ++ (m.samples.map (toBE 2)).flatten)] := by
  simp [create_SamplesResponse, mkFrame, gBody, SamplesResponse.chunks,
    show toBE 2 0x40a4 = [0x40, 0xa4] from by decide]

/-- C2 counterexample: in the decoded Samples response of the repository's
own test vector (messages.rs:532-544), the u16 samples elements come from
the wire byte pairs [0x01, 0x00] and [0x02, 0x00] and decode to 0x0001 and
0x0002 — their little-endian reading — not to the big-endian values 0x0100
and 0x0200 the claim requires for "every other payload field". -/
theorem c2_endianness_counterexample :
    read_SamplesResponse [0x02, 0x40, 0xa4, 0x12, 0x01, 0x02, 0x01, 0x02, 0x01, 0x02,
        0x01, 0x02, 0x03, 0x04, 0x02, 0x02, 0x00, 0x00, 0x01, 0x00, 0x02, 0x00, 0xf2] =
      .ok ⟨0x0102, 0x0102, 0x0102, 0x04030201, 2, [2, 0, 0], [1, 2]⟩ ∧
    ([1, 2] ≠ [fromBE [0x01, 0x00], fromBE [0x02, 0x00]]) ∧
    [1, 2] = [fromLE [0x01, 0x00], fromLE [0x02, 0x00]] ∧
    read_UpdateTimeRequest [0x02, 0x40, 0x22, 0x06, 0x00, 0x01, 0x01, 0x00, 0x00,
        0x00, 0x64] = .ok ⟨1, 0x01000000⟩ ∧
    (0x01000000 ≠ fromLE [0x01, 0x00, 0x00, 0x00]) :=
  ⟨by decide, by decide, by decide, by decide, by decide⟩

/-- C2 (amended): in the codec's frames, `SamplesResponse.time` is
little-endian on both encode and decode; `UpdateTimeRequest.time` is
little-endian on encode but big-endian on decode; the u16 elements of
`SamplesResponse.samples` are big-endian on encode but little-endian on
decode; every other multi-byte payload field is big-endian in both
directions (u16/u32/u64 fields decode as the big-endian reading of their
wire bytes, and the constant u32 payloads are laid out big-endian). -/
theorem c2_endianness_amended :
    (∀ n0 n1 t0 t1 t2 t3 : Nat,
      read_UpdateTimeRequest (mkFrame (gBody 0x4022 0x06 [[n0, n1], [t0, t1, t2, t3]])) =
        .ok ⟨fromBE [n0, n1], fromBE [t0, t1, t2, t3]⟩) ∧
    (∀ net time : Nat,
      create_UpdateTimeRequest ⟨net, time⟩ =
        [0x02, 0x40, 0x22, 0x06] ++ toBE 2 net ++ toLE 4 time ++
          [csWrite 0 ([0x40, 0x22, 0x06] ++ toBE 2 net ++ toLE 4 time)]) ∧
    (∀ (n0 n1 c0 c1 d0 d1 t0 t1 t2 t3 s0 s1 s2 : Nat) (pairs : List (Nat × Nat)),
      read_SamplesResponse (mkFrame (gBody 0x40a4 ((14 + 2 * pairs.length) % 256)
          [[n0, n1], [c0, c1], [d0, d1], [t0, t1, t2, t3], [pairs.length], [s0, s1, s2],
            (pairs.map (fun p => [p.1, p.2])).flatten])) =
        .ok ⟨fromBE [n0, n1], fromBE [c0, c1], fromBE [d0, d1], fromLE [t0, t1, t2, t3],
          pairs.length, [s0, s1, s2], pairs.map (fun p => fromLE [p.1, p.2])⟩) ∧
    (∀ m : SamplesResponse,
      create_SamplesResponse m =
        [0x02, 0x40, 0xa4, (14 + 2 * m.sample_count) % 256] ++ toBE 2 m.network_id ++
          toBE 2 m.channel_id ++ toBE 2 m.data ++ toLE 4 m.time ++ toBE 1 m.sample_count ++
          m.stored_sample_count ++ (m.samples.map (toBE 2)).flatten ++
          [csWrite 0 ([0x40, 0xa4, (14 + 2 * m.sample_count) % 256] ++ toBE 2 m.network_id ++
            toBE 2 m.channel_id ++ toBE 2 m.data ++ toLE 4 m.time ++ toBE 1 m.sample_count ++
            m.stored_sample_count ++ (m.samples.map (toBE 2)).flatten)]) ∧
    (∀ (d : List Nat), d.length = 12 → ∀ v0 v1 v2 v3 v4 v5 v6 v7 w0 w1 : Nat,
      read_BootResponse (mkFrame (gBody 0x4084 0x16
          [d, [v0, v1, v2, v3, v4, v5, v6, v7], [w0, w1]])) =
        .ok ⟨d, fromBE [v0, v1, v2, v3, v4, v5, v6, v7], fromBE [w0, w1]⟩) ∧
    (∀ n0 n1 v0 v1 v2 v3 v4 v5 v6 v7 db : Nat,
      read_BroadcastResponse (mkFrame (gBody 0xa013 0x0b
          [[n0, n1], [v0, v1, v2, v3, v4, v5, v6, v7], [db]])) =
        .ok ⟨fromBE [n0, n1], fromBE [v0, v1, v2, v3, v4, v5, v6, v7], db⟩) ∧
    (∀ n0 n1 : Nat,
      read_UpdateTimeResponse (mkFrame (gBody 0x40a2 0x03 [[n0, n1], [0x00]])) =
        .ok ⟨fromBE [n0, n1]⟩) ∧
    (∀ n0 n1 : Nat,
      read_HandshakeRequest (mkFrame (gBody 0x4003 0x04 [[n0, n1], [0x05, 0x00]])) =
        .ok ⟨fromBE [n0, n1]⟩) ∧
    (∀ n0 n1 c0 c1 : Nat,
      read_SamplesRequest (mkFrame (gBody 0x4024 0x06 [[n0, n1], [c0, c1], [0x0a, 0x00]])) =
        .ok ⟨fromBE [n0, n1], fromBE [c0, c1]⟩) ∧
    (∀ (n0 n1 ch : Nat) (sch : List Nat), sch.length = 56 →
      read_ScheduleRequest (mkFrame (gBody 0x4023 0x3b [[n0, n1], [ch], sch])) =
        .ok ⟨fromBE [n0, n1], ch, sch⟩) ∧
    create_UnlockRequest ⟨⟩ = [0x02, 0xa2, 0x36, 0x04, 0xfc, 0xff, 0x90, 0x01, 0x02] ∧
    create_LockRequest ⟨⟩ = [0x02, 0xa2, 0x36, 0x04, 0xfc, 0xff, 0x00, 0x01, 0x92] :=
  ⟨read_UpdateTimeRequest_raw, create_UpdateTimeRequest_layout,
    read_SamplesResponse_raw, create_SamplesResponse_layout,
    fun d hd => read_BootResponse_raw d hd,
    read_BroadcastResponse_raw, read_UpdateTimeResponse_raw,
    read_HandshakeRequest_raw, read_SamplesRequest_raw,
    fun n0 n1 ch sch hs => read_ScheduleRequest_raw n0 n1 ch sch hs,
    by decide, by decide⟩

theorem c2_endianness_witness :
    read_BootResponse (mkFrame (gBody 0x4084 0x16
        [[1, 2, 3, 4, 5, 6, 7, 8, 9, 10, 11, 12], [1, 2, 3, 4, 5, 6, 7, 8], [1, 2]])) =
      .ok ⟨[1, 2, 3, 4, 5, 6, 7, 8, 9, 10, 11, 12], fromBE [1, 2, 3, 4, 5, 6, 7, 8],
        fromBE [1, 2]⟩ ∧
    read_ScheduleRequest (mkFrame (gBody 0x4023 0x3b
        [[0, 1], [1], List.replicate 56 0])) =
      .ok ⟨fromBE [0, 1], 1, List.replicate 56 0⟩ ∧
    read_UpdateTimeRequest (mkFrame (gBody 0x4022 0x06 [[0, 1], [1, 0, 0, 0]])) =
      .ok ⟨fromBE [0, 1], fromBE [1, 0, 0, 0]⟩ ∧
    read_SamplesResponse (mkFrame (gBody 0x40a4 ((14 + 2 * ([(1, 0)] : List (Nat × Nat)).length) % 256)
        [[0, 1], [0, 2], [0, 3], [4, 3, 2, 1], [([(1, 0)] : List (Nat × Nat)).length], [0, 0, 0],
          (([(1, 0)] : List (Nat × Nat)).map (fun p => [p.1, p.2])).flatten])) =
      .ok ⟨fromBE [0, 1], fromBE [0, 2], fromBE [0, 3], fromLE [4, 3, 2, 1],
        ([(1, 0)] : List (Nat × Nat)).length, [0, 0, 0],
        ([(1, 0)] : List (Nat × Nat)).map (fun p => fromLE [p.1, p.2])⟩ :=
  ⟨c2_endianness_amended.2.2.2.2.1 [1, 2, 3, 4, 5, 6, 7, 8, 9, 10, 11, 12] (by decide)
      1 2 3 4 5 6 7 8 1 2,
    c2_endianness_amended.2.2.2.2.2.2.2.2.2.1 0 1 1 (List.replicate 56 0) (by decide),
    c2_endianness_amended.1 0 1 1 0 0 0,
    c2_endianness_amended.2.2.1 0 1 0 2 0 3 4 3 2 1 0 0 0 [(1, 0)]⟩

/- =============== The dongle session (dongle.rs) =============== -/

/-- The session error type (`DongleError`, dongle.rs:10-14), plus a variant
modeling the arithmetic-overflow panic of the u8 addition
`header_buf[3] + 1` (dongle.rs:92, 148) in a debug build: the program
aborts there rather than returning an error, so the model gives that
outcome a distinguished result. -/
inductive DongleError where
  | messageFailure
  | serialConnectionError
  | panicOverflow
deriving DecidableEq

/-- The byte transport: `rx` models the bytes the FTDI receive queue will
deliver, `tx` logs each transmitted buffer in order
(`SerialConnection`, serial_connection.rs). -/
structure Transport where
  rx : List Nat
  tx : List (List Nat)
deriving DecidableEq

/-- `SerialConnection::transmit` (serial_connection.rs:38-41). -/
def transmit (command : List Nat) (t : Transport) : Transport :=
  { t with tx := t.tx ++ [command] }

/-- `SerialConnection::receive` (serial_connection.rs:43-57): loops until
exactly `expected_bytes` bytes have been read; a stream that cannot supply
them gives the transport error the FTDI layer would surface. -/
def receive (expected_bytes : Nat) (t : Transport) :
    Except DongleError (List Nat × Transport) :=
  if expected_bytes ≤ t.rx.length then
    .ok (t.rx.take expected_bytes, { t with rx := t.rx.drop expected_bytes })
  else .error .serialConnectionError

/-- `From<binrw::Error> for DongleError` (dongle.rs:16-20): every decode
failure collapses to `MessageFailure`. -/
def toDongle {α : Type} : Except DecodeError α → Except DongleError α
  | .ok a => .ok a
  | .error _ => .error .messageFailure

/-- The u8 sum `(header_buf[3] + 1) as usize` (dongle.rs:92 and 148),
modeled with checked semantics: at a length-code byte of 0xff the u8
addition overflows (a debug build panics there). -/
def remainingBytes (lenCode : Nat) : Option Nat :=
  if lenCode + 1 < 256 then some (lenCode + 1) else none

/-- The two-phase variable-length read shared by `commission`
(dongle.rs:91-97) and `request_samples` (dongle.rs:147-153): receive the
4-byte header, compute `header_buf[3] + 1`, receive exactly that many more
bytes, and return the concatenation for decoding. -/
def readVarFrame (t : Transport) : Except DongleError (List Nat × Transport) :=
  match receive 4 t with
  | .error e => .error e
  | .ok (header_buf, t) =>
    match remainingBytes (header_buf.getD 3 0) with
    | none => .error .panicOverflow
    | some remaining_bytes =>
      match receive remaining_bytes t with
      | .error e => .error e
      | .ok (payload_buf, t) => .ok (header_buf ++ payload_buf, t)

theorem readVarFrame_ok (h0 h1 h2 l : Nat) (rest : List Nat) (tx : List (List Nat))
    (hl : l ≤ 0xfe) (hr : l + 1 ≤ rest.length) :
    readVarFrame ⟨[h0, h1, h2, l] ++ rest, tx⟩ =
      .ok ([h0, h1, h2, l] ++ rest.take (l + 1), ⟨rest.drop (l + 1), tx⟩) := by
  rw [readVarFrame, receive]
  rw [if_pos (show 4 ≤ ([h0, h1, h2, l] ++ rest).length from by simp)]
  rw [show ([h0, h1, h2, l] ++ rest).take 4 = [h0, h1, h2, l] from
    List.take_left [h0, h1, h2, l] rest]
  rw [show ([h0, h1, h2, l] ++ rest).drop 4 = rest from
    List.drop_left [h0, h1, h2, l] rest]
  simp only [List.getD_cons_succ, List.getD_cons_zero, remainingBytes,
    if_pos (show l + 1 < 256 from by omega), receive, if_pos hr]

/-- C6: the two-phase read receives exactly 4 header bytes and then exactly
`header_buf[3] + 1` further bytes before decoding the concatenation; in
particular a header whose length-code byte is 0x12 is followed by exactly
19 further received bytes. (`commission`, dongle.rs:91-97, and
`request_samples`, dongle.rs:147-153, both run this read against the
transport.) -/
theorem c6_two_phase_read :
    (∀ (h0 h1 h2 l : Nat) (rest : List Nat) (tx : List (List Nat)),
      l ≤ 0xfe → l + 1 ≤ rest.length →
      readVarFrame ⟨[h0, h1, h2, l] ++ rest, tx⟩ =
        .ok ([h0, h1, h2, l] ++ rest.take (l + 1), ⟨rest.drop (l + 1), tx⟩)) ∧
    (∀ (h0 h1 h2 : Nat) (rest : List Nat) (tx : List (List Nat)),
      19 ≤ rest.length →
      readVarFrame ⟨[h0, h1, h2, 0x12] ++ rest, tx⟩ =
        .ok ([h0, h1, h2, 0x12] ++ rest.take 19, ⟨rest.drop 19, tx⟩)) :=
  ⟨fun h0 h1 h2 l rest tx hl hr => readVarFrame_ok h0 h1 h2 l rest tx hl hr,
    fun h0 h1 h2 rest tx hr =>
      readVarFrame_ok h0 h1 h2 0x12 rest tx (by norm_num) hr⟩

theorem c6_two_phase_read_witness :
    readVarFrame ⟨[0x02, 0x40, 0xa4, 0x12] ++ List.replicate 19 0x00, []⟩ =
      .ok ([0x02, 0x40, 0xa4, 0x12] ++ (List.replicate 19 (0x00 : Nat)).take 19,
        ⟨(List.replicate 19 (0x00 : Nat)).drop 19, []⟩) ∧
    readVarFrame ⟨[0x02, 0xa0, 0x13, 0x0b] ++ List.replicate 12 0x01, []⟩ =
      .ok ([0x02, 0xa0, 0x13, 0x0b] ++ (List.replicate 12 (0x01 : Nat)).take (0x0b + 1),
        ⟨(List.replicate 12 (0x01 : Nat)).drop (0x0b + 1), []⟩) :=
  ⟨c6_two_phase_read.2 0x02 0x40 0xa4 (List.replicate 19 0x00) [] (by decide),
    c6_two_phase_read.1 0x02 0xa0 0x13 0x0b (List.replicate 12 0x01) []
      (by decide) (by decide)⟩

/-- C10: the byte count of the second receive is the 8-bit sum
`header_buf[3] + 1`; it is defined exactly when the length-code byte is at
most 0xfe, and for a header with length-code byte 0xff the u8 addition
overflows, so the two-phase read has no defined result there (the model's
distinguished overflow outcome, a panic in a debug build of the source). -/
theorem c10_header_overflow :
    (∀ l : Nat, l ≤ 0xfe → remainingBytes l = some (l + 1)) ∧
    remainingBytes 0xff = none ∧
    (∀ (h0 h1 h2 : Nat) (rest : List Nat) (tx : List (List Nat)),
      readVarFrame ⟨[h0, h1, h2, 0xff] ++ rest, tx⟩ = .error .panicOverflow) := by
  refine ⟨fun l hl => ?_, rfl, fun h0 h1 h2 rest tx => ?_⟩
  · rw [remainingBytes, if_pos (by omega)]
  · rw [readVarFrame, receive]
    rw [if_pos (show 4 ≤ ([h0, h1, h2, 0xff] ++ rest).length from by simp)]
    rw [show ([h0, h1, h2, 0xff] ++ rest).take 4 = [h0, h1, h2, 0xff] from
      List.take_left [h0, h1, h2, 0xff] rest]
    simp only [List.getD_cons_succ, List.getD_cons_zero, remainingBytes,
      if_neg (show ¬(255 + 1 < 256) from by omega)]

theorem c10_header_overflow_witness :
    remainingBytes 0x12 = some 19 ∧
    readVarFrame ⟨[0x02, 0xa0, 0x13, 0xff], []⟩ = .error .panicOverflow :=
  ⟨c10_header_overflow.1 0x12 (by decide),
    c10_header_overflow.2.2 0x02 0xa0 0x13 [] []⟩

/-- `Dongle::unlock_network` (dongle.rs:190-201): transmit an UnlockRequest,
receive the 6-byte LockResponse. -/
def unlock_network (t : Transport) : Except DongleError (LockResponse × Transport) :=
  match receive 6 (transmit (create_UnlockRequest ⟨⟩) t) with
  | .error e => .error e
  | .ok (returned, t2) =>
    match toDongle (read_LockResponse returned) with
    | .error e => .error e
    | .ok r => .ok (r, t2)

/-- `Dongle::lock_network` (dongle.rs:203-215). -/
def lock_network (t : Transport) : Except DongleError (LockResponse × Transport) :=
  match receive 6 (transmit (create_LockRequest ⟨⟩) t) with
  | .error e => .error e
  | .ok (returned, t2) =>
    match toDongle (read_LockResponse returned) with
    | .error e => .error e
    | .ok r => .ok (r, t2)

/-- `Dongle::update_time` (dongle.rs:241-256): send an UpdateTimeRequest,
read the 6-byte ack, then the 8-byte confirmation. -/
def update_time (network_id time : Nat) (t : Transport) :
    Except DongleError (UpdateTimeResponse × Transport) :=
  match receive 6 (transmit (create_UpdateTimeRequest ⟨network_id, time⟩) t) with
  | .error e => .error e
  | .ok (ackreturned, t2) =>
    match toDongle (read_UpdateTimeAckResponse ackreturned) with
    | .error e => .error e
    | .ok _ =>
      match receive 8 t2 with
      | .error e => .error e
      | .ok (returned, t3) =>
        match toDongle (read_UpdateTimeResponse returned) with
        | .error e => .error e
        | .ok r => .ok (r, t3)

/-- `SwitchState` (dongle.rs:59-62). -/
inductive SwitchState where
  | AlwaysOn
  | AlwaysOff
deriving DecidableEq

/-- The 56-byte schedule bitmap `switch` builds (dongle.rs:161-174):
`AlwaysOff` is a 0x7f fill with byte 5 set to 0x25, `AlwaysOn` a 0xff fill
with byte 5 set to 0xa5. -/
def scheduleBitmap : SwitchState → List Nat
  | .AlwaysOff => (List.replicate 56 0x7f).set 5 0x25
  | .AlwaysOn => (List.replicate 56 0xff).set 5 0xa5

/-- `Dongle::switch` (dongle.rs:160-188): build the schedule bitmap, send
one ScheduleRequest, await the 6-byte ScheduleResponse. -/
def switch (network_id channel_id : Nat) (state : SwitchState) (t : Transport) :
    Except DongleError (ScheduleResponse × Transport) :=
  match receive 6 (transmit (create_ScheduleRequest
      ⟨network_id, channel_id, scheduleBitmap state⟩) t) with
  | .error e => .error e
  | .ok (returned, t2) =>
    match toDongle (read_ScheduleResponse returned) with
    | .error e => .error e
    | .ok r => .ok (r, t2)

/-- `Dongle::request_samples` (dongle.rs:138-158): send a SamplesRequest,
read the 6-byte ack, then the two-phase variable-length read, and return
the decoded samples. -/
def request_samples (network_id channel_id : Nat) (t : Transport) :
    Except DongleError (List Nat × Transport) :=
  match receive 6 (transmit (create_SamplesRequest ⟨network_id, channel_id⟩) t) with
  | .error e => .error e
  | .ok (returned, t2) =>
    match toDongle (read_AckResponse returned) with
    | .error e => .error e
    | .ok _ =>
      match readVarFrame t2 with
      | .error e => .error e
      | .ok (buf, t3) =>
        match toDongle (read_SamplesResponse buf) with
        | .error e => .error e
        | .ok response => .ok (response.samples, t3)

/-- `DongleId` (dongle.rs:49-52). -/
structure DongleId where
  device : Nat
  network : Nat
deriving DecidableEq

/-- `CommissionStatus` (dongle.rs:53-57). -/
inductive CommissionStatus where
  | Commissioned (id : DongleId)
  | NotCommissioned
  | Unknown
deriving DecidableEq

/-- The wait loop of `Dongle::commission` (dongle.rs:85-121). Wall-clock
time is abstracted: `fuel` counts the iterations the 30-second deadline
still allows (`Instant::now() > until` holds iff `fuel = 0`), and `clock`
is the whole-second result of `SystemTime::now().duration_since(UNIX_EPOCH)`
(`none` models `Err`, which is tolerated and skips time sync). The `as u32`
truncation of the timestamp is `% 2 ^ 32`. Each iteration runs the
two-phase read; a frame whose byte 1 is not 0xa0 is skipped
(`if buf[1] != 0xa0 continue`, dongle.rs:98-100); otherwise the frame must
decode as a Broadcast, time is updated, the network re-locked, and the
device returned. -/
def commissionLoop : Nat → Option Nat → Transport →
    Except DongleError (CommissionStatus × Transport)
  | 0, _, t => .ok (.Unknown, t)
  | fuel + 1, clock, t =>
    match readVarFrame t with
    | .error e => .error e
    | .ok (buf, t1) =>
      if buf.getD 1 0 ≠ 0xa0 then
        commissionLoop fuel clock t1
      else
        match toDongle (read_BroadcastResponse buf) with
        | .error e => .error e
        | .ok response =>
          match (match clock with
            | some ts =>
              match update_time response.network_id (ts % 2 ^ 32) t1 with
              | Except.error e => Except.error e
              | Except.ok (_, t2) => Except.ok t2
            | none => (Except.ok t1 : Except DongleError Transport)) with
          | .error e => .error e
          | .ok t2 =>
            match lock_network t2 with
            | .error e => .error e
            | .ok (_, t3) =>
              .ok (.Commissioned ⟨response.device_id, response.network_id⟩, t3)

/-- `Dongle::commission` (dongle.rs:77-125): unlock the network, then run
the wait loop until a broadcast arrives or the deadline passes. -/
def commission (fuel : Nat) (clock : Option Nat) (t : Transport) :
    Except DongleError (CommissionStatus × Transport) :=
  match unlock_network t with
  | .error e => .error e
  | .ok (_, t1) => commissionLoop fuel clock t1

/-- A received byte stream from which `fuel` iterations of the commission
loop each read one well-formed frame whose byte 1 (the first command byte)
is not 0xa0 — a transport that never produces a Broadcast frame. -/
def nonBroadcastStream : Nat → List Nat → Bool
  | 0, _ => true
  | fuel + 1, rx =>
    decide (4 ≤ rx.length) && decide (rx.getD 3 0 ≤ 0xfe) &&
      decide (4 + (rx.getD 3 0 + 1) ≤ rx.length) && decide (rx.getD 1 0 ≠ 0xa0) &&
      nonBroadcastStream fuel (rx.drop (4 + (rx.getD 3 0 + 1)))

theorem getD_take_lt (l : List Nat) (i n d : Nat) (h : i < n) :
    (l.take n).getD i d = l.getD i d := by
  simp [List.getD_eq_getElem?_getD, List.getElem?_take, h]

theorem readVarFrame_general (t : Transport) (h4 : 4 ≤ t.rx.length)
    (hl : t.rx.getD 3 0 ≤ 0xfe) (hr : 4 + (t.rx.getD 3 0 + 1) ≤ t.rx.length) :
    readVarFrame t = .ok (t.rx.take (4 + (t.rx.getD 3 0 + 1)),
      ⟨t.rx.drop (4 + (t.rx.getD 3 0 + 1)), t.tx⟩) := by
  rw [readVarFrame, receive, if_pos h4]
  simp only [getD_take_lt t.rx 3 4 0 (by norm_num), remainingBytes,
    if_pos (show t.rx.getD 3 0 + 1 < 256 from by omega), receive,
    if_pos (show t.rx.getD 3 0 + 1 ≤ (t.rx.drop 4).length from by
      rw [List.length_drop]; omega)]
  rw [← List.take_add, List.drop_drop]

theorem commissionLoop_skip (fuel : Nat) (clock : Option Nat) (t : Transport)
    (h4 : 4 ≤ t.rx.length) (hl : t.rx.getD 3 0 ≤ 0xfe)
    (hr : 4 + (t.rx.getD 3 0 + 1) ≤ t.rx.length)
    (hne : t.rx.getD 1 0 ≠ 0xa0) :
    commissionLoop (fuel + 1) clock t =
      commissionLoop fuel clock ⟨t.rx.drop (4 + (t.rx.getD 3 0 + 1)), t.tx⟩ := by
  rw [commissionLoop, readVarFrame_general t h4 hl hr]
  simp only [getD_take_lt t.rx 1 (4 + (t.rx.getD 3 0 + 1)) 0 (by omega)]
  rw [if_pos hne]

/-- C7 counterexample: a valid 6-byte LockResponse frame has command id
0xa0f9 ≠ 0xa013, yet the commission loop does not discard it — its second
byte is 0xa0, so the loop tries to decode it as a Broadcast and aborts with
an error instead of continuing. -/
theorem c7_discard_counterexample :
    read_LockResponse [0x02, 0xa0, 0xf9, 0x01, 0x00, 0x58] = .ok ⟨⟩ ∧
    fromBE [0xa0, 0xf9] ≠ 0xa013 ∧
    commissionLoop 2 none ⟨[0x02, 0xa0, 0xf9, 0x01, 0x00, 0x58], []⟩ =
      .error .messageFailure :=
  ⟨by decide, by decide, by decide⟩

/-- C7 (amended): during the commission wait loop, a received frame is
discarded (and the loop continues on the remaining stream, transmitting
nothing) exactly when its byte 1 — the first of the two command bytes — is
not 0xa0; a frame whose byte 1 is 0xa0 but which does not decode as a
Broadcast (for example command 0xa0f9) aborts commission with an error
rather than being discarded. -/
theorem c7_discard_amended :
    (∀ (fuel : Nat) (clock : Option Nat) (h0 h1 h2 l : Nat) (rest : List Nat)
        (tx : List (List Nat)),
      l ≤ 0xfe → l + 1 ≤ rest.length → h1 ≠ 0xa0 →
      commissionLoop (fuel + 1) clock ⟨[h0, h1, h2, l] ++ rest, tx⟩ =
        commissionLoop fuel clock ⟨rest.drop (l + 1), tx⟩) ∧
    (∀ (fuel : Nat) (clock : Option Nat) (h0 h2 l : Nat) (rest : List Nat)
        (tx : List (List Nat)) (e : DecodeError),
      l ≤ 0xfe → l + 1 ≤ rest.length →
      read_BroadcastResponse ([h0, 0xa0, h2, l] ++ rest.take (l + 1)) = .error e →
      commissionLoop (fuel + 1) clock ⟨[h0, 0xa0, h2, l] ++ rest, tx⟩ =
        .error .messageFailure) := by
  constructor
  · intro fuel clock h0 h1 h2 l rest tx hl hr hne
    rw [commissionLoop, readVarFrame_ok h0 h1 h2 l rest tx hl hr]
    simp only [List.cons_append, List.getD_cons_succ, List.getD_cons_zero]
    rw [if_pos hne]
  · intro fuel clock h0 h2 l rest tx e hl hr hread
    rw [commissionLoop, readVarFrame_ok h0 0xa0 h2 l rest tx hl hr]
    simp only [List.cons_append, List.nil_append, List.getD_cons_succ,
      List.getD_cons_zero]
    simp only [List.cons_append, List.nil_append] at hread
    rw [if_neg (show ¬(0xa0 ≠ 0xa0) from by simp), hread]
    rfl

theorem c7_discard_witness :
    commissionLoop 1 none ⟨[0x02, 0x40, 0x03, 0x01] ++ [0x00, 0x42], []⟩ =
      commissionLoop 0 none ⟨([0x00, 0x42] : List Nat).drop 2, []⟩ ∧
    read_BroadcastResponse ([0x02, 0xa0, 0xf9, 0x01] ++
        ([0x00, 0x58] : List Nat).take 2) = .error .eof ∧
    commissionLoop 3 none ⟨[0x02, 0xa0, 0xf9, 0x01] ++ [0x00, 0x58], []⟩ =
      .error .messageFailure :=
  ⟨c7_discard_amended.1 0 none 0x02 0x40 0x03 0x01 [0x00, 0x42] [] (by decide)
      (by decide) (by decide),
    by decide,
    c7_discard_amended.2 2 none 0x02 0xf9 0x01 [0x00, 0x58] [] .eof (by decide)
      (by decide) (by decide)⟩

theorem commissionLoop_nonBroadcast (fuel : Nat) (clock : Option Nat)
    (rx : List Nat) (tx : List (List Nat))
    (h : nonBroadcastStream fuel rx = true) :
    ∃ rx', commissionLoop fuel clock ⟨rx, tx⟩ = .ok (.Unknown, ⟨rx', tx⟩) := by
  induction fuel generalizing rx with
  | zero => exact ⟨rx, rfl⟩
  | succ n ih =>
    rw [nonBroadcastStream] at h
    simp only [Bool.and_eq_true, decide_eq_true_eq] at h
    obtain ⟨⟨⟨⟨h4, hl⟩, hr⟩, hne⟩, htail⟩ := h
    rw [commissionLoop_skip n clock ⟨rx, tx⟩ h4 hl hr hne]
    exact ih _ htail

/-- C8: against a transport whose stream never contains a Broadcast frame,
`commission` returns `Unknown` once the deadline has elapsed (the fuel is
spent), having transmitted exactly one frame over the whole call — the
Unlock request (whose 6-byte response it consumed) — and no Lock request:
the network stays unlocked on the timeout path. -/
theorem c8_commission_timeout :
    ∀ (fuel : Nat) (clock : Option Nat) (ur rest : List Nat) (tx : List (List Nat)),
      ur.length = 6 → read_LockResponse ur = .ok ⟨⟩ →
      nonBroadcastStream fuel rest = true →
      ∃ rx', commission fuel clock ⟨ur ++ rest, tx⟩ =
        .ok (.Unknown, ⟨rx', tx ++ [create_UnlockRequest ⟨⟩]⟩) := by
  intro fuel clock ur rest tx hlen hur hnb
  rw [commission, unlock_network]
  rw [show transmit (create_UnlockRequest ⟨⟩) ⟨ur ++ rest, tx⟩ =
      ⟨ur ++ rest, tx ++ [create_UnlockRequest ⟨⟩]⟩ from rfl]
  rw [receive]
  simp only [if_pos (show (6 : Nat) ≤ (ur ++ rest).length from by simp [hlen]),
    show (ur ++ rest).take 6 = ur from by rw [← hlen]; exact List.take_left ur rest,
    show (ur ++ rest).drop 6 = rest from by rw [← hlen]; exact List.drop_left ur rest,
    hur, toDongle]
  exact commissionLoop_nonBroadcast fuel clock rest _ hnb

theorem c8_commission_timeout_witness :
    ([0x02, 0xa0, 0xf9, 0x01, 0x00, 0x58] : List Nat).length = 6 ∧
    read_LockResponse [0x02, 0xa0, 0xf9, 0x01, 0x00, 0x58] = .ok ⟨⟩ ∧
    nonBroadcastStream 2
      ([0x02, 0x40, 0x03, 0x01, 0x00, 0x42] ++ [0x02, 0x40, 0x03, 0x01, 0x00, 0x42]) = true ∧
    ∃ rx', commission 2 none
        ⟨[0x02, 0xa0, 0xf9, 0x01, 0x00, 0x58] ++
          ([0x02, 0x40, 0x03, 0x01, 0x00, 0x42] ++ [0x02, 0x40, 0x03, 0x01, 0x00, 0x42]), []⟩ =
      .ok (.Unknown, ⟨rx', [] ++ [create_UnlockRequest ⟨⟩]⟩) :=
  ⟨by decide, by decide, by decide,
    c8_commission_timeout 2 none [0x02, 0xa0, 0xf9, 0x01, 0x00, 0x58]
      ([0x02, 0x40, 0x03, 0x01, 0x00, 0x42] ++ [0x02, 0x40, 0x03, 0x01, 0x00, 0x42]) []
      (by decide) (by decide) (by decide)⟩

/-- C9: for every network id and socket number, `switch` with `AlwaysOn`
transmits a Schedule request whose 56-byte schedule buffer is 0xff at every
offset except offset 5, which is 0xa5; with `AlwaysOff` the buffer is 0x7f
everywhere except 0x25 at offset 5. -/
theorem c9_schedule_buffers :
    (scheduleBitmap .AlwaysOn).length = 56 ∧
    (scheduleBitmap .AlwaysOff).length = 56 ∧
    (∀ i : Fin 56, (scheduleBitmap .AlwaysOn).getD i.val 0 =
      if i.val = 5 then 0xa5 else 0xff) ∧
    (∀ i : Fin 56, (scheduleBitmap .AlwaysOff).getD i.val 0 =
      if i.val = 5 then 0x25 else 0x7f) ∧
    (∀ (network_id channel_id : Nat) (state : SwitchState) (t : Transport)
        (r : ScheduleResponse) (t' : Transport),
      switch network_id channel_id state t = .ok (r, t') →
      t'.tx = t.tx ++
        [create_ScheduleRequest ⟨network_id, channel_id, scheduleBitmap state⟩]) := by
  refine ⟨by decide, by decide, by decide, by decide, ?_⟩
  intro net ch st t r t' hok
  rw [switch, receive] at hok
  by_cases h6 : 6 ≤ t.rx.length
  · simp only [transmit, if_pos h6] at hok
    cases hread : read_ScheduleResponse (t.rx.take 6) with
    | error e =>
      rw [hread] at hok
      simp [toDongle] at hok
    | ok rr =>
      rw [hread] at hok
      simp only [toDongle] at hok
      injection hok with h1
      injection h1 with h2 h3
      subst h3
      rfl
  · simp only [transmit, if_neg h6] at hok
    cases hok

theorem c9_schedule_buffers_witness :
    switch 1 0 .AlwaysOn ⟨[0x02, 0x40, 0x23, 0x01, 0x00, 0x62], []⟩ =
      .ok (⟨⟩, ⟨[], [create_ScheduleRequest ⟨1, 0, scheduleBitmap .AlwaysOn⟩]⟩) ∧
    (⟨[], [create_ScheduleRequest ⟨1, 0, scheduleBitmap .AlwaysOn⟩]⟩ : Transport).tx =
      ([] : List (List Nat)) ++ [create_ScheduleRequest ⟨1, 0, scheduleBitmap .AlwaysOn⟩] :=
  ⟨by decide,
    c9_schedule_buffers.2.2.2.2 1 0 .AlwaysOn ⟨[0x02, 0x40, 0x23, 0x01, 0x00, 0x62], []⟩
      ⟨⟩ ⟨[], [create_ScheduleRequest ⟨1, 0, scheduleBitmap .AlwaysOn⟩]⟩ (by decide)⟩
